import Mathlib

/-!
Verification development for the seller analytics aggregation engine of the
`legacieweb/shop` repository (`src/app.js`).

The repository contains two near-duplicate analytics route bodies:

* `GET /api/seller/analytics` (app.js lines 1776-2073), called the "api route"
  below; its helpers `getTimeKey` / `groupByProductId` are defined inside the
  route body (lines 1829-1854).
* `GET /seller/analytics` (app.js lines 2594-2774), called the "seller route"
  below; it uses the module-level helpers `getTimeKey` / `groupByProductId`
  (lines 2569-2590).

The embedding below translates both route bodies.  Conventions:

* JavaScript numbers are modelled as `ℚ` (the aggregation performs only
  exact arithmetic on its inputs; float rounding is out of scope).
  A field that may be absent (`undefined`) is an `Option`.
* JavaScript objects used as dictionaries are modelled as insertion-ordered
  association lists `List (String × α)` with unique keys; `setK` updates an
  existing key in place and appends a new key at the end, exactly like a JS
  property write.
* A `Date` value is modelled in broken-down form (`JSDate`): `valid = false`
  corresponds to an Invalid Date (obtained from a missing or non-numeric
  timestamp).  Calling `toISOString()` on an invalid date throws a
  `RangeError`; the route's `try/catch` then answers HTTP 500.  This is
  modelled by `Except`: a thrown exception is `.error ()` and the partial
  mutations made before the throw are discarded, which matches the
  observable behaviour (the route returns no data on a throw).
  The server timezone is taken to be UTC, so the local-time accessors
  (`getHours`, `getDay`, `getDate`, `getFullYear`, `getMonth`) and the UTC
  fields used by `toISOString` agree.
-/

/-- JavaScript `a || b` for an optional number: `undefined`, `NaN` and `0`
are falsy; the model restricts fields to absent-or-numeric, so falsy means
`none` or `some 0`. -/
def qOrD (a : Option ℚ) (b : ℚ) : ℚ :=
  match a with
  | some x => if x = 0 then b else x
  | none => b

/-- JavaScript `a || b` for an optional string with a string default:
`undefined` and the empty string are falsy. -/
def sOrD (a : Option String) (b : String) : String :=
  match a with
  | some s => if s = "" then b else s
  | none => b

/-- JavaScript `a || b` for two optional strings (used where the JS result
may be `undefined`/`null`). -/
def sOrN (a : Option String) (b : Option String) : Option String :=
  match a with
  | some s => if s = "" then b else some s
  | none => b

/-- JavaScript `a || b` where both sides are strings ("" is falsy). -/
def jsOrStr (a b : String) : String :=
  if a = "" then b else a

/-- Association-list lookup, modelling a JS property read `m[k]`. -/
def getK {α : Type} (m : List (String × α)) (k : String) : Option α :=
  (m.find? (fun p => p.1 = k)).map (fun p => p.2)

/-- Association-list write, modelling a JS property write `m[k] = v`:
an existing key keeps its position, a new key is appended. -/
def setK {α : Type} (m : List (String × α)) (k : String) (v : α) :
    List (String × α) :=
  if m.any (fun p => p.1 = k) then
    m.map (fun p => if p.1 = k then (k, v) else p)
  else
    m ++ [(k, v)]

/-- The JS accumulation idiom `m[k] = (m[k] || 0) + v`. -/
def addK {α : Type} [Zero α] [Add α] (m : List (String × α)) (k : String)
    (v : α) : List (String × α) :=
  setK m k (((getK m k).getD 0) + v)

/-- Code-unit comparison of two character lists.  Models the default JS
string comparison used by `Array.prototype.sort()`; all key strings produced
by the aggregation are ASCII, where code units and code points agree. -/
def charListLe : List Char → List Char → Bool
  | [], _ => true
  | _ :: _, [] => false
  | a :: as, b :: bs =>
    if a.val < b.val then true
    else if b.val < a.val then false
    else charListLe as bs

/-- JS default string ordering (see `charListLe`). -/
def jsStrLe (a b : String) : Bool :=
  charListLe a.data b.data

/-- Insert `a` after every element `b` with `le b a`; helper for `jsSort`. -/
def insertSorted {α : Type} (le : α → α → Bool) (a : α) :
    List α → List α
  | [] => [a]
  | b :: bs => if le b a then b :: insertSorted le a bs else a :: b :: bs

/-- Stable sort by a total boolean preorder; models `Array.prototype.sort`
with a consistent comparator (ECMAScript sorts are stable).  An element is
inserted after all elements already placed that compare `le` to it, so
comparator-equal elements keep their original relative order. -/
def jsSort {α : Type} (le : α → α → Bool) (l : List α) : List α :=
  l.foldl (fun acc x => insertSorted le x acc) []

/-- Broken-down form of a JS `Date` as the aggregation reads it.
`valid = false` models an Invalid Date (`new Date(undefined)`,
`new Date("garbage")`, ...): every numeric accessor then returns `NaN` and
`toISOString()` throws.  For a valid date the fields are:
`year = getFullYear()`, `month = getMonth() + 1` (1-12),
`day = getDate()` (1-31), `hour = getHours()` (0-23),
`weekday = getDay()` (0-6), `dayOfYear` = full days since Jan 1 of `year`
(0-based), `msOfDay` = milliseconds since local midnight (< 86400000), and
`jan1Weekday = (new Date(year, 0, 1)).getDay()`. -/
structure JSDate where
  valid : Bool
  year : Nat
  month : Nat
  day : Nat
  hour : Nat
  weekday : Nat
  dayOfYear : Nat
  msOfDay : Nat
  jan1Weekday : Nat
deriving Repr, DecidableEq

/-- String of a `Nat` padded on the left with `'0'` to two characters;
`String(n).padStart(2, '0')`. -/
def padStart2 (s : String) : String :=
  if s.length < 2 then "0" ++ s else s

/-- Two-digit decimal rendering used inside ISO date strings. -/
def pad2 (n : Nat) : String :=
  padStart2 (toString n)

/-- Four-digit year rendering used by `toISOString()` (years 0-9999). -/
def pad4 (n : Nat) : String :=
  let s : String := toString n
  if s.length < 4 then String.mk (List.replicate (4 - s.length) '0') ++ s
  else s

/-- The `YYYY-MM-DD` prefix of `toISOString()` for a valid date. -/
def isoDayStr (y m d : Nat) : String :=
  pad4 y ++ "-" ++ pad2 m ++ "-" ++ pad2 d

/-- Gregorian leap-year rule, as implemented by JS `Date`. -/
def isLeap (y : Nat) : Bool :=
  (y % 4 = 0 && y % 100 ≠ 0) || y % 400 = 0

/-- Number of days of month `m` (1-12) of year `y`, as used by the JS
`setDate` underflow normalisation. -/
def daysInMonth (y m : Nat) : Nat :=
  if m = 2 then (if isLeap y then 29 else 28)
  else if m = 4 ∨ m = 6 ∨ m = 9 ∨ m = 11 then 30
  else 31

/-- The `(year, month, day)` produced by
`weekStart = new Date(d); weekStart.setDate(d.getDate() - d.getDay())`
in the api route's week branch: move back `getDay()` days, borrowing from
the previous month when the subtraction leaves the current month
(`setDate` normalises day numbers `≤ 0` into the previous month; the
borrow never exceeds one month because `getDay() ≤ 6`). -/
def weekStartYMD (d : JSDate) : Nat × Nat × Nat :=
  if d.weekday < d.day then (d.year, d.month, d.day - d.weekday)
  else
    let py : Nat := if d.month = 1 then d.year - 1 else d.year
    let pm : Nat := if d.month = 1 then 12 else d.month - 1
    (py, pm, daysInMonth py pm + d.day - d.weekday)

/-- The week number computed by the module-level `getTimeKey`:
`Math.ceil((((d - onejan) / 86400000) + onejan.getDay() + 1) / 7)` where
`onejan = new Date(getFullYear(), 0, 1)`.  With
`d - onejan = dayOfYear * 86400000 + msOfDay` milliseconds, the ceiling of
the exact rational is the rounded-up natural division below (every operand
is nonnegative). -/
def jsWeekNumber (d : JSDate) : Nat :=
  (d.dayOfYear * 86400000 + d.msOfDay + (d.jan1Weekday + 1) * 86400000
    + (604800000 - 1)) / 604800000

/-- Module-level `getTimeKey` (app.js lines 2576-2590), used by the seller
route.  On an Invalid Date the branches that call `toISOString()` throw
(`.error ()`); the `week`, `month` and `year` branches instead interpolate
`NaN` into the key string, which is what the JS template literals produce. -/
def getTimeKeyMod (d : JSDate) (range : String) : Except Unit String :=
  match range with
  | "hour" =>
    if d.valid then .ok (isoDayStr d.year d.month d.day ++ "T" ++ pad2 d.hour)
    else .error ()
  | "day" =>
    if d.valid then .ok (isoDayStr d.year d.month d.day) else .error ()
  | "week" =>
    if d.valid then
      .ok (toString d.year ++ "-W" ++ padStart2 (toString (jsWeekNumber d)))
    else .ok "NaN-WNaN"
  | "month" =>
    if d.valid then .ok (toString d.year ++ "-" ++ padStart2 (toString d.month))
    else .ok "NaN-NaN"
  | "year" => .ok (if d.valid then toString d.year else "NaN")
  | _ =>
    if d.valid then .ok (isoDayStr d.year d.month d.day) else .error ()

/-- Route-local `getTimeKey` of the api route (app.js lines 1829-1842).
Its week branch returns `weekStart.toISOString().substring(0, 10)`, i.e. a
`YYYY-MM-DD` date, not a `YYYY-Www` key; its hour branch appends `":00"`.
Every branch except `year` calls `toISOString()` and therefore throws on an
Invalid Date. -/
def getTimeKeyApi (d : JSDate) (range : String) : Except Unit String :=
  match range with
  | "hour" =>
    if d.valid then
      .ok (isoDayStr d.year d.month d.day ++ "T" ++ pad2 d.hour ++ ":00")
    else .error ()
  | "day" =>
    if d.valid then .ok (isoDayStr d.year d.month d.day) else .error ()
  | "week" =>
    if d.valid then
      .ok (isoDayStr (weekStartYMD d).1 (weekStartYMD d).2.1 (weekStartYMD d).2.2)
    else .error ()
  | "month" =>
    if d.valid then .ok (pad4 d.year ++ "-" ++ pad2 d.month) else .error ()
  | "year" => .ok (if d.valid then toString d.year else "NaN")
  | _ =>
    if d.valid then .ok (isoDayStr d.year d.month d.day) else .error ()

/-- The `buyer` field of an order is duck-typed: either a bare identifier
string or a structured object with an `id` and optionally a `country`. -/
inductive Buyer where
  | ident (id : String)
  | obj (id : String) (country : Option String)
deriving Repr, DecidableEq

/-- The stable buyer identifier:
`typeof order.buyer === "object" ? order.buyer.id : order.buyer`. -/
def buyerId : Buyer → String
  | .ident i => i
  | .obj i _ => i

/-- The value of `order.buyer?.country` (a bare string buyer has no
`country` property). -/
def buyerCountry : Buyer → Option String
  | .ident _ => none
  | .obj _ c => c

/-- An order document, with exactly the fields the two analytics routes
read.  `variantPrice` is `order.variant?.price`, `deliveryFee` is
`order.delivery?.fee`, `deliveryCountry` is `order.delivery?.country`. -/
structure Order where
  productId : String
  productName : Option String
  productImage : Option String
  seller : String
  buyer : Buyer
  quantity : Option ℚ
  variantPrice : Option ℚ
  subtotal : Option ℚ
  totalAmount : Option ℚ
  price : Option ℚ
  deliveryFee : Option ℚ
  deliveryCountry : Option String
  createdAt : JSDate
deriving Repr

/-- A product document. `mongoId` is `p._id.toString()` (always present),
`id` is the seller-assigned external identifier (`""` when absent, which is
falsy in JS).  `images`, `deliveryFee` and `cost` model the reads
`p.images?.[0]`, `p.deliveryFee` and `p.cost` (absent fields read as
`undefined`). -/
structure Product where
  mongoId : String
  id : String
  seller : String
  name : Option String
  price : Option ℚ
  image : Option String
  images : List String
  deliveryFee : Option ℚ
  cost : Option ℚ
  views : Option ℚ
deriving Repr

/-- A cart document.  `id` models the mongoose `_id` virtual getter, read
by the api route's `groupByProductId` fallback `item.productId || item.id`. -/
structure CartEntry where
  id : String
  buyer : String
  productId : String
  seller : String
  name : Option String
  price : Option ℚ
  image : Option String
  variantPrice : Option ℚ
  quantity : Option ℚ
deriving Repr

/-- A wishlist document (no seller field, no quantity field in the schema;
`quantity` is kept as an optional read because `groupByProductId` reads
`item.quantity || 1`). -/
structure WishlistEntry where
  id : String
  buyer : String
  productId : String
  quantity : Option ℚ
deriving Repr

/-- The `ProductAccumulator` record built in `productMap` by both routes. -/
structure ProductAcc where
  id : String
  name : Option String
  price : ℚ
  cost : ℚ
  sold : ℚ
  inCart : ℚ
  inWishlist : ℚ
  deliveryFees : ℚ
  image : Option String
deriving Repr

/-- The mutable aggregation state shared by the order-processing loop of
both routes (`productMap`, `customers`, `customerOrders`, `salesOverTime`,
`hourBuckets`, `salesByCountry`, `earnings`).  `customers` models the JS
`Set` as an insertion-ordered duplicate-free list. -/
structure AState where
  productMap : List (String × ProductAcc)
  customers : List String
  customerOrders : List (String × Nat)
  salesOverTime : List (String × ℚ)
  hourBuckets : List ℚ
  salesByCountry : List (String × ℚ)
  earnings : ℚ
deriving Repr

/-- The initial aggregation state (app.js lines 1857-1863 / 2618-2624). -/
def initState : AState :=
  ⟨[], [], [], [], List.replicate 24 0, [], 0⟩

/-- Api-route unit price:
`parseFloat(order.variant?.price || order.subtotal || order.totalAmount || order.price || 0)`. -/
def orderPriceApi (o : Order) : ℚ :=
  qOrD o.variantPrice (qOrD o.subtotal (qOrD o.totalAmount (qOrD o.price 0)))

/-- Seller-route unit price: `parseFloat(order.variant?.price || order.subtotal || 0)`. -/
def orderPriceSeller (o : Order) : ℚ :=
  qOrD o.variantPrice (qOrD o.subtotal 0)

/-- `order.quantity || 1` (absent or zero quantity defaults to 1). -/
def orderQty (o : Order) : ℚ :=
  qOrD o.quantity 1

/-- `parseFloat(order.delivery?.fee || 0)`. -/
def orderFee (o : Order) : ℚ :=
  qOrD o.deliveryFee 0

/-- Per-order revenue of the api route: `quantity * price + deliveryFee`
(app.js line 1887). -/
def revenueApi (o : Order) : ℚ :=
  orderQty o * orderPriceApi o + orderFee o

/-- Per-order revenue of the seller route: `quantity * (price + deliveryFee)`
(app.js line 2632). -/
def revenueSeller (o : Order) : ℚ :=
  orderQty o * (orderPriceSeller o + orderFee o)

/-- Lookup in an image map whose values may themselves be `undefined`
(`imageMap[pid]` is falsy both when the key is absent and when the stored
value is `undefined`). -/
def imgGet (m : List (String × Option String)) (k : String) : Option String :=
  ((getK m k).getD none)

/-- One iteration of the api route's order loop (app.js lines 1882-1919).
The mutations are modelled in source order; the single throwing step is the
`toISOString()` call inside `getTimeKey`, and a throw aborts the whole
request, so the state built before the throw is discarded with it. -/
def processOrderApi (imageMap : List (String × Option String))
    (range : String) (st : AState) (o : Order) : Except Unit AState :=
  let pid := o.productId
  let price := orderPriceApi o
  let quantity := orderQty o
  let deliveryFee := orderFee o
  let revenue := quantity * price + deliveryFee
  let country := sOrD o.deliveryCountry (sOrD (buyerCountry o.buyer) "Unknown")
  let salesByCountry := addK st.salesByCountry country revenue
  -- seed-if-absent (lines 1892-1904), then `sold += quantity` and
  -- `deliveryFees += deliveryFee` (lines 1906-1907)
  let acc0 : ProductAcc :=
    match getK st.productMap pid with
    | some a => a
    | none =>
      { id := pid
        name := some (sOrD o.productName ("Product " ++ pid))
        price := price / quantity
        cost := deliveryFee / quantity
        sold := 0
        inCart := 0
        inWishlist := 0
        deliveryFees := 0
        image := sOrN (imgGet imageMap pid) (sOrN o.productImage none) }
  let productMap := setK st.productMap pid
    { acc0 with sold := acc0.sold + quantity
                deliveryFees := acc0.deliveryFees + deliveryFee }
  let earnings := st.earnings + revenue
  match getTimeKeyApi o.createdAt range with
  | .error e => .error e
  | .ok timeKey =>
    let salesOverTime := addK st.salesOverTime timeKey revenue
    -- `new Date(order.createdAt).getHours()`: on an Invalid Date the index
    -- is NaN, so JS writes the property "NaN" on the array object and the
    -- numeric slots 0-23 are untouched; only the `year` branch of
    -- `getTimeKey` lets an Invalid Date reach this line.
    let hourBuckets :=
      if o.createdAt.valid then
        st.hourBuckets.set o.createdAt.hour
          (st.hourBuckets.getD o.createdAt.hour 0 + revenue)
      else st.hourBuckets
    let bId := buyerId o.buyer
    let customers :=
      if st.customers.contains bId then st.customers else st.customers ++ [bId]
    let customerOrders := addK st.customerOrders bId 1
    .ok ⟨productMap, customers, customerOrders, salesOverTime, hourBuckets,
         salesByCountry, earnings⟩

/-- The api route's `for (const order of orders)` loop. -/
def processOrdersApi (imageMap : List (String × Option String))
    (range : String) : AState → List Order → Except Unit AState
  | st, [] => .ok st
  | st, o :: rest =>
    match processOrderApi imageMap range st o with
    | .error e => .error e
    | .ok st1 => processOrdersApi imageMap range st1 rest

/-- One iteration of the seller route's order loop (app.js lines 2627-2664).
It differs from the api route in the unit-price fallback chain, the revenue
formula `quantity * (price + deliveryFee)`, the country fallback (no
`buyer?.country`), the accumulator seed (`price` and `cost` are not divided
by `quantity`) and in using the module-level `getTimeKey`. -/
def processOrderSeller (imageMap : List (String × Option String))
    (range : String) (st : AState) (o : Order) : Except Unit AState :=
  let pid := o.productId
  let price := orderPriceSeller o
  let quantity := orderQty o
  let deliveryFee := orderFee o
  let revenue := quantity * (price + deliveryFee)
  let country := sOrD o.deliveryCountry "Unknown"
  let salesByCountry := addK st.salesByCountry country revenue
  let acc0 : ProductAcc :=
    match getK st.productMap pid with
    | some a => a
    | none =>
      { id := pid
        name := o.productName
        price := price
        cost := deliveryFee
        sold := 0
        inCart := 0
        inWishlist := 0
        deliveryFees := 0
        image := sOrN (imgGet imageMap pid) (sOrN o.productImage none) }
  let productMap := setK st.productMap pid
    { acc0 with sold := acc0.sold + quantity
                deliveryFees := acc0.deliveryFees + deliveryFee }
  let earnings := st.earnings + revenue
  match getTimeKeyMod o.createdAt range with
  | .error e => .error e
  | .ok timeKey =>
    let salesOverTime := addK st.salesOverTime timeKey revenue
    let hourBuckets :=
      if o.createdAt.valid then
        st.hourBuckets.set o.createdAt.hour
          (st.hourBuckets.getD o.createdAt.hour 0 + revenue)
      else st.hourBuckets
    let bId := buyerId o.buyer
    let customers :=
      if st.customers.contains bId then st.customers else st.customers ++ [bId]
    let customerOrders := addK st.customerOrders bId 1
    .ok ⟨productMap, customers, customerOrders, salesOverTime, hourBuckets,
         salesByCountry, earnings⟩

/-- The seller route's order loop. -/
def processOrdersSeller (imageMap : List (String × Option String))
    (range : String) : AState → List Order → Except Unit AState
  | st, [] => .ok st
  | st, o :: rest =>
    match processOrderSeller imageMap range st o with
    | .error e => .error e
    | .ok st1 => processOrdersSeller imageMap range st1 rest

/-- The fields `groupByProductId` reads from a cart or wishlist item
(`item.productId`, the `_id` virtual `item.id`, and `item.quantity`). -/
structure GItem where
  productId : String
  id : String
  quantity : Option ℚ
deriving Repr

/-- The view of a cart entry consumed by `groupByProductId`. -/
def CartEntry.gItem (c : CartEntry) : GItem :=
  ⟨c.productId, c.id, c.quantity⟩

/-- The view of a wishlist entry consumed by `groupByProductId`. -/
def WishlistEntry.gItem (w : WishlistEntry) : GItem :=
  ⟨w.productId, w.id, w.quantity⟩

/-- The api route's `groupByProductId` (app.js lines 1844-1854):
`pid = item.productId || item.id`, skip falsy pids, sum `quantity || 1`. -/
def groupByProductIdApi (items : List GItem) : List (String × ℚ) :=
  items.foldl
    (fun result item =>
      let pid := jsOrStr item.productId item.id
      if pid = "" then result else addK result pid (qOrD item.quantity 1))
    []

/-- The module-level `groupByProductId` (app.js lines 2569-2574): keys by
`item.productId` unconditionally, sums `quantity || 1`. -/
def groupByProductIdMod (items : List GItem) : List (String × ℚ) :=
  items.foldl
    (fun acc item => addK acc item.productId (qOrD item.quantity 1))
    []

/-- The shared shape of the four cart/wishlist merge loops: for each grouped
`pid`, reuse the existing accumulator or create one from `seed`, then assign
the grouped count to `inCart` (`isCart = true`) or `inWishlist`. -/
def mergeCountsInto (seed : String → ProductAcc) (isCart : Bool)
    (pm : List (String × ProductAcc)) (counts : List (String × ℚ)) :
    List (String × ProductAcc) :=
  counts.foldl
    (fun pm kv =>
      let acc := (getK pm kv.1).getD (seed kv.1)
      setK pm kv.1
        (if isCart then { acc with inCart := kv.2 }
         else { acc with inWishlist := kv.2 }))
    pm

/-- Accumulator seed of the api route's cart merge (app.js lines 1934-1948). -/
def apiCartSeed (relevantCartItems : List CartEntry) (products : List Product)
    (imageMap : List (String × Option String)) (costMap : List (String × ℚ))
    (pid : String) : ProductAcc :=
  let m := relevantCartItems.find? (fun c => c.productId = pid)
  let product := products.find? (fun p => p.mongoId = pid ∨ p.id = pid)
  { id := pid
    name := some (sOrD (product.bind (fun p => p.name))
      (sOrD (m.bind (fun c => c.name)) ("Product " ++ pid)))
    price := qOrD (product.bind (fun p => p.price))
      (qOrD (m.bind (fun c => c.variantPrice)) (qOrD (m.bind (fun c => c.price)) 0))
    cost := qOrD (getK costMap pid) 0
    sold := 0
    inCart := 0
    inWishlist := 0
    deliveryFees := 0
    image := sOrN (imgGet imageMap pid) (sOrN (m.bind (fun c => c.image)) none) }

/-- Accumulator seed of the api route's wishlist merge (app.js lines
1960-1972); the catalog lookup only tries the internal identifier. -/
def apiWishSeed (products : List Product)
    (imageMap : List (String × Option String)) (costMap : List (String × ℚ))
    (pid : String) : ProductAcc :=
  let product := products.find? (fun p => p.mongoId = pid)
  { id := pid
    name := some (sOrD (product.bind (fun p => p.name)) ("Product " ++ pid))
    price := qOrD (product.bind (fun p => p.price)) 0
    cost := qOrD (getK costMap pid) 0
    sold := 0
    inCart := 0
    inWishlist := 0
    deliveryFees := 0
    image := sOrN (imgGet imageMap pid) none }

/-- Accumulator seed of the seller route's cart merge (app.js lines
2669-2682). -/
def sellerCartSeed (cart : List CartEntry)
    (imageMap : List (String × Option String)) (costMap : List (String × ℚ))
    (pid : String) : ProductAcc :=
  let m := cart.find? (fun c => c.productId = pid)
  { id := pid
    name := some (sOrD (m.bind (fun c => c.name)) pid)
    price := qOrD (m.bind (fun c => c.variantPrice))
      (qOrD (m.bind (fun c => c.price)) 0)
    cost := qOrD (getK costMap pid) 0
    sold := 0
    inCart := 0
    inWishlist := 0
    deliveryFees := 0
    image := sOrN (imgGet imageMap pid) (sOrN (m.bind (fun c => c.image)) none) }

/-- Accumulator seed of the seller route's wishlist merge (app.js lines
2692-2705); fallbacks come from the seller's own orders. -/
def sellerWishSeed (orders : List Order)
    (imageMap : List (String × Option String)) (costMap : List (String × ℚ))
    (pid : String) : ProductAcc :=
  let m := orders.find? (fun o => o.productId = pid)
  { id := pid
    name := some (sOrD (m.bind (fun o => o.productName)) pid)
    price := qOrD (m.bind (fun o => o.variantPrice)) 0
    cost := qOrD (getK costMap pid) 0
    sold := 0
    inCart := 0
    inWishlist := 0
    deliveryFees := 0
    image := sOrN (imgGet imageMap pid) (sOrN (m.bind (fun o => o.productImage)) none) }

/-- Conversion-funnel payload.  `views` and `addedToCart` are sums of JS
numbers; `checkout` and `completed` are `orders.length` in both routes. -/
structure Funnel where
  views : ℚ
  addedToCart : ℚ
  checkout : Nat
  completed : Nat
deriving Repr

/-- Customer-insights payload of the api route.  The JS field `repeat` is
called `repeatCount` here (`repeat` is a Lean keyword); `new` is
`total - repeat` computed in ℤ. -/
structure CustomerStats where
  total : Nat
  repeatCount : Nat
  new : Int
deriving Repr, DecidableEq

/-- One `profitMargins` element of the api route (app.js lines 1999-2006):
only `name`, `price`, `cost`, `sold` are emitted. -/
structure PMApi where
  name : Option String
  price : ℚ
  cost : ℚ
  sold : ℚ
deriving Repr

/-- One `profitMargins` element of the seller route (app.js lines
2723-2736), carrying the three derived figures as well. -/
structure PMSeller where
  name : Option String
  price : ℚ
  cost : ℚ
  sold : ℚ
  totalRevenue : ℚ
  profitPerUnit : ℚ
  totalProfit : ℚ
deriving Repr

/-- The JSON payload of the api route (app.js lines 2023-2067).
`bestTimeToSell` is flattened into `bestTimeLabels` / `bestTimeSales`;
`salesByRegion` entries are `(country, amount)` pairs; `dateRange` (computed
from the wall clock before the fetch) is outside the aggregation core and
not modelled. -/
structure ApiResult where
  products : List ProductAcc
  storeName : String
  earnings : ℚ
  totalOrders : Nat
  totalProducts : Nat
  avgOrderValue : ℚ
  months : List String
  monthlySales : List ℚ
  bestTimeLabels : List String
  bestTimeSales : List ℚ
  salesByRegion : List (String × ℚ)
  profitMargins : List PMApi
  funnel : Funnel
  customers : CustomerStats
  range : String
deriving Repr

/-- Customer block of the seller route (no `new` field there). -/
structure SellerCustomers where
  total : Nat
  repeatCount : Nat
deriving Repr, DecidableEq

/-- The JSON payload of the seller route (app.js lines 2751-2768). -/
structure SellerResult where
  storeName : String
  products : List ProductAcc
  earnings : ℚ
  customers : SellerCustomers
  months : List String
  monthlySales : List ℚ
  bestTimeLabels : List String
  bestTimeSales : List ℚ
  profitMargins : List PMSeller
  funnel : Funnel
  salesByRegion : List (String × ℚ)
deriving Repr

/-- Derived-output computation of the api route (app.js lines 1977-2067),
applied to the state left by the order loop and the cart/wishlist merges. -/
def buildApiResult (seller range : String) (orders : List Order)
    (products : List Product) (st : AState) : ApiResult :=
  let productsData := st.productMap.map (fun p => p.2)
  let repeatCustomers :=
    ((st.customerOrders.map (fun p => p.2)).filter (fun n => decide (1 < n))).length
  let sortedKeys := jsSort jsStrLe (st.salesOverTime.map (fun p => p.1))
  let monthlySales := sortedKeys.map (fun k => (getK st.salesOverTime k).getD 0)
  let bestTimeLabels := (List.range 24).map (fun i => toString i ++ ":00")
  let salesByRegion := jsSort (fun a b => decide (b.2 ≤ a.2)) st.salesByCountry
  let profitMargins := (productsData.filter (fun p => decide (0 < p.sold))).map
    (fun p => PMApi.mk p.name p.price p.cost p.sold)
  let formattedProducts := jsSort
    (fun a b => decide (b.sold * b.price + b.deliveryFees
      ≤ a.sold * a.price + a.deliveryFees))
    (productsData.filter (fun p => decide (0 < p.sold)))
  let totalCustomers := st.customers.length
  let totalViews :=
    (productsData.map (fun p => p.inCart + p.inWishlist + p.sold)).sum
  let totalAddedToCart := (productsData.map (fun p => p.inCart)).sum
  { products := formattedProducts
    storeName := seller
    earnings := st.earnings
    totalOrders := orders.length
    totalProducts := products.length
    avgOrderValue :=
      if 0 < orders.length then st.earnings / (orders.length : ℚ) else 0
    months := sortedKeys
    monthlySales := monthlySales
    bestTimeLabels := bestTimeLabels
    bestTimeSales := st.hourBuckets
    salesByRegion := salesByRegion
    profitMargins := profitMargins
    funnel := Funnel.mk totalViews totalAddedToCart orders.length orders.length
    customers := CustomerStats.mk totalCustomers repeatCustomers
      ((totalCustomers : Int) - (repeatCustomers : Int))
    range := range }

/-- The api route's identifier reconciler for images (app.js lines
1865-1879): populated under the internal identifier and, when truthy, also
under the external identifier. -/
def apiImageMap (products : List Product) : List (String × Option String) :=
  products.foldl
    (fun m p =>
      let m1 := setK m p.mongoId (sOrN p.image p.images.head?)
      if p.id = "" then m1 else setK m1 p.id (sOrN p.image p.images.head?))
    []

/-- The api route's identifier reconciler for unit costs
(`parseFloat(p.deliveryFee || 0)` under both identifier forms). -/
def apiCostMap (products : List Product) : List (String × ℚ) :=
  products.foldl
    (fun m p =>
      let m1 := setK m p.mongoId (qOrD p.deliveryFee 0)
      if p.id = "" then m1 else setK m1 p.id (qOrD p.deliveryFee 0))
    []

/-- The seller route's image map (app.js lines 2605-2612): only the
seller's products, only under the external identifier. -/
def sellerImageMap (seller : String) (productsAll : List Product) :
    List (String × Option String) :=
  productsAll.foldl
    (fun m p => if p.seller = seller then setK m p.id p.image else m) []

/-- The seller route's cost map (`parseFloat(p.cost || 0)`). -/
def sellerCostMap (seller : String) (productsAll : List Product) :
    List (String × ℚ) :=
  productsAll.foldl
    (fun m p => if p.seller = seller then setK m p.id (qOrD p.cost 0) else m) []

/-- The cart filter of the api route (app.js lines 1921-1931):
identifier-set membership under both identifier forms (the second and third
disjuncts of the source condition are subsumed by the first and kept for
fidelity). -/
def apiRelevantCart (products : List Product) (cart : List CartEntry) :
    List CartEntry :=
  let sellerProductIds := products.map (fun p => p.mongoId)
  let sellerCustomIds :=
    (products.map (fun p => p.id)).filter (fun s => decide (s ≠ ""))
  let allSellerIds := sellerProductIds ++ sellerCustomIds
  cart.filter (fun c =>
    allSellerIds.contains c.productId || sellerProductIds.contains c.productId
      || sellerCustomIds.contains c.productId)

/-- The wishlist filter of the api route (app.js lines 1953-1957), same
identifier-set membership test as the cart filter. -/
def apiRelevantWish (products : List Product)
    (wishlist : List WishlistEntry) : List WishlistEntry :=
  let sellerProductIds := products.map (fun p => p.mongoId)
  let sellerCustomIds :=
    (products.map (fun p => p.id)).filter (fun s => decide (s ≠ ""))
  let allSellerIds := sellerProductIds ++ sellerCustomIds
  wishlist.filter (fun w =>
    allSellerIds.contains w.productId || sellerProductIds.contains w.productId
      || sellerCustomIds.contains w.productId)

/-- The api route's cart and wishlist merges (app.js lines 1921-1975)
applied to the accumulator map left by the order loop. -/
def apiMergedPM (products : List Product) (cart : List CartEntry)
    (wishlist : List WishlistEntry) (pm : List (String × ProductAcc)) :
    List (String × ProductAcc) :=
  let imageMap := apiImageMap products
  let costMap := apiCostMap products
  let relevantCartItems := apiRelevantCart products cart
  let cartCounts := groupByProductIdApi (relevantCartItems.map CartEntry.gItem)
  let pm1 := mergeCountsInto
    (apiCartSeed relevantCartItems products imageMap costMap) true pm cartCounts
  let relevantWishlists := apiRelevantWish products wishlist
  let wishlistCounts :=
    groupByProductIdApi (relevantWishlists.map WishlistEntry.gItem)
  mergeCountsInto (apiWishSeed products imageMap costMap) false pm1
    wishlistCounts

/-- The api route body after the seller guard (app.js lines 1815-2067):
reconciler maps over both identifier forms, order loop, cart merge,
wishlist merge, derived outputs.  `orders` stands for the result of
`Order.find` restricted to the seller and the requested date window, and
`products` for `Product.find` restricted to the seller; `cart` and
`wishlist` are the unfiltered collections.  The final aggregation state is
returned alongside the payload so that theorems can speak about the
accumulator map. -/
def runApi (seller range : String) (orders : List Order)
    (products : List Product) (cart : List CartEntry)
    (wishlist : List WishlistEntry) : Except Unit (AState × ApiResult) :=
  match processOrdersApi (apiImageMap products) range initState orders with
  | .error e => .error e
  | .ok st1 =>
    let st2 :=
      { st1 with productMap := apiMergedPM products cart wishlist st1.productMap }
    .ok (st2, buildApiResult seller range orders products st2)

/-- HTTP-level outcome classes of the two routes: the seller guard answers
400 (an InvalidArgument-class condition) and the catch-all answers 500. -/
inductive ApiError where
  | invalidArgument
  | internalError
deriving Repr, DecidableEq

/-- `GET /api/seller/analytics` (app.js lines 1776-2073).
`const { seller, range = "day" } = req.query; if (!seller) ... 400`; the
destructuring default applies only when `range` is absent.  A thrown
exception inside the body is answered with 500 (`internalError`). -/
def apiAnalyticsRoute (seller : Option String) (range : Option String)
    (orders : List Order) (products : List Product) (cart : List CartEntry)
    (wishlist : List WishlistEntry) : Except ApiError ApiResult :=
  match seller with
  | none => .error .invalidArgument
  | some s =>
    if s = "" then .error .invalidArgument
    else
      let r := match range with | some r => r | none => "day"
      match runApi s r orders products cart wishlist with
      | .ok (_, res) => .ok res
      | .error _ => .error .internalError

/-- Derived-output computation of the seller route (app.js lines
2709-2768). -/
def buildSellerResult (seller : String) (orders : List Order)
    (cart : List CartEntry) (productsAll : List Product) (st : AState) :
    SellerResult :=
  let products := st.productMap.map (fun p => p.2)
  let repeatCustomers :=
    ((st.customerOrders.map (fun p => p.2)).filter (fun n => decide (1 < n))).length
  let sortedKeys := jsSort jsStrLe (st.salesOverTime.map (fun p => p.1))
  let graphData := sortedKeys.map (fun k => (getK st.salesOverTime k).getD 0)
  let bestTimeLabels := (List.range 24).map (fun i => toString i ++ ":00")
  let profitMargins := products.map (fun p =>
    let profitPerUnit := p.price - p.cost
    let totalRevenue := p.sold * (p.price + p.cost)
    let totalProfit := profitPerUnit * p.sold
    PMSeller.mk p.name p.price p.cost p.sold totalRevenue profitPerUnit
      totalProfit)
  let funnel := Funnel.mk
    (((productsAll.filter (fun p => p.seller = seller)).map
      (fun p => qOrD p.views 0)).sum)
    (cart.length : ℚ) orders.length orders.length
  let salesByRegion := jsSort (fun a b => decide (b.2 ≤ a.2)) st.salesByCountry
  { storeName := seller
    products := products
    earnings := st.earnings
    customers := SellerCustomers.mk st.customers.length repeatCustomers
    months := sortedKeys
    monthlySales := graphData
    bestTimeLabels := bestTimeLabels
    bestTimeSales := st.hourBuckets
    profitMargins := profitMargins
    funnel := funnel
    salesByRegion := salesByRegion }

/-- The seller route's cart and wishlist merges (app.js lines 2666-2707)
applied to the accumulator map left by the order loop.  Cart relevance is
the entry's own `seller` field; wishlist relevance is established through
the (unfiltered) order collection. -/
def sellerMergedPM (seller : String) (ordersAll : List Order)
    (cartAll : List CartEntry) (wishlistAll : List WishlistEntry)
    (productsAll : List Product) (pm : List (String × ProductAcc)) :
    List (String × ProductAcc) :=
  let imageMap := sellerImageMap seller productsAll
  let costMap := sellerCostMap seller productsAll
  let orders := ordersAll.filter (fun o => o.seller = seller)
  let cart := cartAll.filter (fun c => c.seller = seller)
  let cartCounts := groupByProductIdMod (cart.map CartEntry.gItem)
  let pm1 := mergeCountsInto (sellerCartSeed cart imageMap costMap) true pm
    cartCounts
  let relevantWishlists := wishlistAll.filter (fun w =>
    (ordersAll.find? (fun o => o.productId = w.productId ∧ o.seller = seller)).isSome)
  let wishlistCounts :=
    groupByProductIdMod (relevantWishlists.map WishlistEntry.gItem)
  mergeCountsInto (sellerWishSeed orders imageMap costMap) false pm1
    wishlistCounts

/-- The seller route body after the guard (app.js lines 2600-2768): it
fetches the four collections unfiltered, builds the reconciler maps only
from the seller's products and only under the external identifier, filters
orders and cart by their `seller` field, and establishes wishlist relevance
through the seller's orders. -/
def runSeller (seller range : String) (ordersAll : List Order)
    (cartAll : List CartEntry) (wishlistAll : List WishlistEntry)
    (productsAll : List Product) : Except Unit (AState × SellerResult) :=
  let orders := ordersAll.filter (fun o => o.seller = seller)
  let cart := cartAll.filter (fun c => c.seller = seller)
  match processOrdersSeller (sellerImageMap seller productsAll) range
      initState orders with
  | .error e => .error e
  | .ok st1 =>
    let pm2 :=
      sellerMergedPM seller ordersAll cartAll wishlistAll productsAll
        st1.productMap
    let st2 := { st1 with productMap := pm2 }
    .ok (st2, buildSellerResult seller orders cart productsAll st2)

/-- `GET /seller/analytics` (app.js lines 2594-2774).
`const range = req.query.range || "month"` (an empty string also falls back,
unlike the api route); `if (!seller) ... 400`. -/
def sellerAnalyticsRoute (seller : Option String) (range : Option String)
    (ordersAll : List Order) (cartAll : List CartEntry)
    (wishlistAll : List WishlistEntry) (productsAll : List Product) :
    Except ApiError SellerResult :=
  let r := sOrD range "month"
  match seller with
  | none => .error .invalidArgument
  | some s =>
    if s = "" then .error .invalidArgument
    else
      match runSeller s r ordersAll cartAll wishlistAll productsAll with
      | .ok (_, res) => .ok res
      | .error _ => .error .internalError

/-! ### Association-list and sorting lemmas -/

/-- Sum of the values of a rational-valued dictionary. -/
def qValSum (m : List (String × ℚ)) : ℚ :=
  (m.map (fun p => p.2)).sum

/-- The `sold` count recorded for `pid` (0 when no accumulator exists). -/
def soldOf (m : List (String × ProductAcc)) (pid : String) : ℚ :=
  ((getK m pid).map (fun a => a.sold)).getD 0

/-! ### Concrete fixtures used by counterexamples and witnesses -/

/-- The reconciliation invariant carried through the api order loop for the
bucketed-total claims: the time-series value sum equals the earnings total,
and the time-series keys are duplicate free. -/
def bucketInv (st : AState) : Prop :=
  qValSum st.salesOverTime = st.earnings
  ∧ (st.salesOverTime.map (fun p => p.1)).Nodup

/-- All accumulator fields other than `inCart` / `inWishlist` agree. -/
structure AccFrame (a b : ProductAcc) : Prop where
  idEq : b.id = a.id
  nameEq : b.name = a.name
  priceEq : b.price = a.price
  costEq : b.cost = a.cost
  soldEq : b.sold = a.sold
  feesEq : b.deliveryFees = a.deliveryFees
  imageEq : b.image = a.image

/-- Relation between an accumulator map and its image under a merge: every
pre-existing accumulator survives with all fields but the cart/wishlist
counters intact, and every accumulator that did not exist before has zero
`sold` and zero `deliveryFees`. -/
def mapFrame (m m' : List (String × ProductAcc)) : Prop :=
  ∀ pid : String,
    (∀ a, getK m pid = some a → ∃ b, getK m' pid = some b ∧ AccFrame a b)
    ∧ (getK m pid = none → ∀ b, getK m' pid = some b →
        b.sold = 0 ∧ b.deliveryFees = 0)

/-- March 5, 2024, 14:00 UTC (a Tuesday; Jan 1, 2024 was a Monday). -/
def cexDate1 : JSDate := ⟨true, 2024, 3, 5, 14, 2, 64, 0, 1⟩

/-- March 6, 2024, 10:00 UTC (a Wednesday). -/
def cexDate2 : JSDate := ⟨true, 2024, 3, 6, 10, 3, 65, 0, 1⟩

/-- March 9, 2024, noon UTC (a Saturday, day-of-year 68, week 10). -/
def cexDate3 : JSDate := ⟨true, 2024, 3, 9, 12, 6, 68, 0, 1⟩

/-- An Invalid Date (missing or non-numeric timestamp). -/
def cexInvalidDate : JSDate := ⟨false, 0, 0, 0, 0, 0, 0, 0, 0⟩

/-- Scenario A, first order: references the product by its internal
identifier, quantity 3, unit price 10, delivery fee 5. -/
def cexOrder1 : Order :=
  { productId := "m1", productName := some "Widget", productImage := none,
    seller := "acme", buyer := .ident "b1", quantity := some 3,
    variantPrice := some 10, subtotal := none, totalAmount := none,
    price := none, deliveryFee := some 5, deliveryCountry := some "NG",
    createdAt := cexDate1 }

/-- Scenario A, second order: references the same logical product by its
external identifier, quantity 2, unit price 10, no delivery fee. -/
def cexOrder2 : Order :=
  { productId := "P-100", productName := some "Widget", productImage := none,
    seller := "acme", buyer := .ident "b2", quantity := some 2,
    variantPrice := some 10, subtotal := none, totalAmount := none,
    price := none, deliveryFee := none, deliveryCountry := some "NG",
    createdAt := cexDate2 }

/-- Scenario A catalog product: internal identifier `m1`, external
identifier `P-100`. -/
def cexProduct : Product :=
  { mongoId := "m1", id := "P-100", seller := "acme", name := some "Widget",
    price := some 10, image := none, images := [], deliveryFee := none,
    cost := none, views := none }

/-- An order for the seller route with quantity 2, unit price 10 (via
`subtotal`) and delivery fee 5. -/
def cexOrderB : Order :=
  { productId := "pb1", productName := some "Gadget", productImage := none,
    seller := "s1", buyer := .ident "b3", quantity := some 2,
    variantPrice := none, subtotal := some 10, totalAmount := none,
    price := none, deliveryFee := some 5, deliveryCountry := none,
    createdAt := cexDate1 }

/-- An order with a missing timestamp but computable revenue
(2 × 10 + 5 = 25). -/
def cexOrderBad : Order :=
  { productId := "p9", productName := some "NoDate", productImage := none,
    seller := "s1", buyer := .ident "b9", quantity := some 2,
    variantPrice := some 10, subtotal := none, totalAmount := none,
    price := none, deliveryFee := some 5, deliveryCountry := none,
    createdAt := cexInvalidDate }

/-- A cart entry of seller `s1` for a product that has no orders. -/
def cexCart1 : CartEntry :=
  { id := "cid1", buyer := "b4", productId := "pc1", seller := "s1",
    name := some "Thing", price := some 7, image := none,
    variantPrice := none, quantity := some 2 }

/-- The zero-valued api payload returned for empty inputs. -/
def emptyApiResult (s rg : String) : ApiResult :=
  { products := []
    storeName := s
    earnings := 0
    totalOrders := 0
    totalProducts := 0
    avgOrderValue := 0
    months := []
    monthlySales := []
    bestTimeLabels := (List.range 24).map (fun i => toString i ++ ":00")
    bestTimeSales := List.replicate 24 0
    salesByRegion := []
    profitMargins := []
    funnel := Funnel.mk 0 0 0 0
    customers := CustomerStats.mk 0 0 0
    range := rg }

/-- The full api payload for Scenario A (two orders referencing the same
logical product by its two identifier forms, catalog containing that one
product), as the code actually computes it. -/
def cexApiResult : ApiResult :=
  { products := [⟨"m1", some "Widget", 10/3, 5/3, 3, 0, 0, 5, none⟩,
                 ⟨"P-100", some "Widget", 5, 0, 2, 0, 0, 0, none⟩]
    storeName := "acme"
    earnings := 55
    totalOrders := 2
    totalProducts := 1
    avgOrderValue := 55/2
    months := [isoDayStr 2024 3 5, isoDayStr 2024 3 6]
    monthlySales := [35, 20]
    bestTimeLabels := (List.range 24).map (fun i => toString i ++ ":00")
    bestTimeSales := ((List.replicate 24 0).set 14 35).set 10 20
    salesByRegion := [("NG", 55)]
    profitMargins := [⟨some "Widget", 10/3, 5/3, 3⟩, ⟨some "Widget", 5, 0, 2⟩]
    funnel := ⟨5, 0, 2, 2⟩
    customers := ⟨2, 0, 2⟩
    range := "day" }

/-- The aggregation state after processing `cexOrder1` alone. -/
def cexStApi1 : AState :=
  ⟨[("m1", ⟨"m1", some "Widget", 10/3, 5/3, 3, 0, 0, 5, none⟩)],
   ["b1"], [("b1", 1)], [(isoDayStr 2024 3 5, 35)],
   (List.replicate 24 0).set 14 35, [("NG", 35)], 35⟩

/-- The accumulator created for the cart-only product `pc1`. -/
def cexAccC : ProductAcc := ⟨"pc1", some "Thing", 7, 0, 0, 2, 0, 0, none⟩

/-- The aggregation state of the seller route for the cart-only input. -/
def cexSellerStC : AState :=
  ⟨[("pc1", cexAccC)], [], [], [], List.replicate 24 0, [], 0⟩

/-- The seller payload for the cart-only input. -/
def cexSellerResC : SellerResult :=
  { storeName := "s1"
    products := [cexAccC]
    earnings := 0
    customers := ⟨0, 0⟩
    months := []
    monthlySales := []
    bestTimeLabels := (List.range 24).map (fun i => toString i ++ ":00")
    bestTimeSales := List.replicate 24 0
    profitMargins := [⟨some "Thing", 7, 0, 0, 0, 7, 0⟩]
    funnel := ⟨0, 1, 0, 0⟩
    salesByRegion := [] }

theorem getK_nil {α : Type} (k : String) :
    getK ([] : List (String × α)) k = none := rfl

theorem getK_cons {α : Type} (p : String × α) (m : List (String × α))
    (k : String) :
    getK (p :: m) k = if p.1 = k then some p.2 else getK m k := by
  by_cases h : p.1 = k <;> simp [getK, List.find?_cons, h]

theorem getK_mapUpdate_self {α : Type} (m : List (String × α)) (k : String)
    (v : α) (h : m.any (fun p => p.1 = k) = true) :
    getK (m.map (fun p => if p.1 = k then (k, v) else p)) k = some v := by
  induction m with
  | nil => simp at h
  | cons p m ih =>
    by_cases hp : p.1 = k
    · simp [List.map_cons, hp, getK_cons]
    · simp only [List.any_cons, Bool.or_eq_true, decide_eq_true_eq] at h
      rcases h with h | h
      · exact absurd h hp
      · simp [List.map_cons, hp, getK_cons, ih h]

theorem getK_appendSingle_self {α : Type} (m : List (String × α)) (k : String)
    (v : α) (h : m.any (fun p => p.1 = k) = false) :
    getK (m ++ [(k, v)]) k = some v := by
  induction m with
  | nil => simp [getK_cons]
  | cons p m ih =>
    simp only [List.any_cons, Bool.or_eq_false_iff, decide_eq_false_iff_not] at h
    simp [List.cons_append, getK_cons, h.1, ih h.2]

theorem getK_setK_self {α : Type} (m : List (String × α)) (k : String)
    (v : α) : getK (setK m k v) k = some v := by
  unfold setK
  by_cases hany : m.any (fun p => p.1 = k) = true
  · simp only [hany, if_true]
    exact getK_mapUpdate_self m k v hany
  · have h2 : m.any (fun p => p.1 = k) = false := by
      rwa [Bool.not_eq_true] at hany
    rw [if_neg (by simp [h2])]
    exact getK_appendSingle_self m k v h2

theorem getK_mapUpdate_ne {α : Type} (m : List (String × α)) (k k' : String)
    (v : α) (h : k' ≠ k) :
    getK (m.map (fun p => if p.1 = k then (k, v) else p)) k' = getK m k' := by
  induction m with
  | nil => rfl
  | cons p m ih =>
    by_cases hp : p.1 = k
    · simp [List.map_cons, hp, getK_cons, Ne.symm h, ih]
    · simp [List.map_cons, hp, getK_cons, ih]

theorem getK_appendSingle_ne {α : Type} (m : List (String × α))
    (k k' : String) (v : α) (h : k' ≠ k) :
    getK (m ++ [(k, v)]) k' = getK m k' := by
  induction m with
  | nil => simp [getK_nil, getK_cons, Ne.symm h]
  | cons p m ih => simp [List.cons_append, getK_cons, ih]

theorem getK_setK_ne {α : Type} (m : List (String × α)) (k k' : String)
    (v : α) (h : k' ≠ k) : getK (setK m k v) k' = getK m k' := by
  unfold setK
  by_cases hany : m.any (fun p => p.1 = k) = true
  · simp only [hany, if_true]
    exact getK_mapUpdate_ne m k k' v h
  · have h2 : m.any (fun p => p.1 = k) = false := by
      rwa [Bool.not_eq_true] at hany
    rw [if_neg (by simp [h2])]
    exact getK_appendSingle_ne m k k' v h

theorem keys_mapUpdate {α : Type} (m : List (String × α)) (k : String)
    (v : α) :
    (m.map (fun p => if p.1 = k then (k, v) else p)).map (fun p => p.1)
      = m.map (fun p => p.1) := by
  induction m with
  | nil => rfl
  | cons p m ih =>
    by_cases hp : p.1 = k <;> simp [List.map_cons, hp, ih]

theorem keys_setK {α : Type} (m : List (String × α)) (k : String) (v : α) :
    (setK m k v).map (fun p => p.1)
      = if m.any (fun p => p.1 = k) = true then m.map (fun p => p.1)
        else m.map (fun p => p.1) ++ [k] := by
  unfold setK
  by_cases hany : m.any (fun p => p.1 = k) = true
  · simp only [hany, if_true]
    exact keys_mapUpdate m k v
  · have h2 : m.any (fun p => p.1 = k) = false := by
      rwa [Bool.not_eq_true] at hany
    simp [h2]

theorem getK_eq_none_iff {α : Type} (m : List (String × α)) (k : String) :
    getK m k = none ↔ m.any (fun p => p.1 = k) = false := by
  constructor
  · intro h
    rw [List.any_eq_false]
    intro p hp
    simp only [decide_eq_true_eq]
    intro hk
    have : m.find? (fun q => q.1 = k) = none := by
      simpa [getK] using h
    have h2 := List.find?_eq_none.mp this p hp
    simp [hk] at h2
  · intro h
    have : m.find? (fun q => q.1 = k) = none := by
      rw [List.find?_eq_none]
      intro p hp
      have := List.any_eq_false.mp h p hp
      simpa using this
    simp [getK, this]

theorem nodup_keys_setK {α : Type} (m : List (String × α)) (k : String)
    (v : α) (h : (m.map (fun p => p.1)).Nodup) :
    ((setK m k v).map (fun p => p.1)).Nodup := by
  rw [keys_setK]
  by_cases hany : m.any (fun p => p.1 = k) = true
  · simpa [hany] using h
  · have h2 : m.any (fun p => p.1 = k) = false := by
      rwa [Bool.not_eq_true] at hany
    have hk : k ∉ m.map (fun p => p.1) := by
      intro hmem
      rcases List.mem_map.mp hmem with ⟨p, hp, hpk⟩
      have := List.any_eq_false.mp h2 p hp
      simp [hpk] at this
    simp only [h2, Bool.false_eq_true, if_false]
    refine List.Nodup.append h (List.nodup_singleton k) ?_
    intro a ha hb
    rw [List.mem_singleton] at hb
    subst hb
    exact hk ha

theorem qValSum_nil : qValSum [] = 0 := rfl

theorem qValSum_cons (p : String × ℚ) (m : List (String × ℚ)) :
    qValSum (p :: m) = p.2 + qValSum m := by
  simp [qValSum]

theorem qValSum_mapUpdate (m : List (String × ℚ)) (k : String) (w v : ℚ)
    (hn : (m.map (fun p => p.1)).Nodup) (hw : getK m k = some w) :
    qValSum (m.map (fun p => if p.1 = k then (k, w + v) else p))
      = qValSum m + v := by
  induction m with
  | nil => simp [getK_nil] at hw
  | cons p m ih =>
    rw [getK_cons] at hw
    simp only [List.map_cons, List.nodup_cons] at hn
    by_cases hp : p.1 = k
    · rw [if_pos hp] at hw
      obtain rfl : p.2 = w := Option.some.inj hw
      have hrest : m.map (fun q => if q.1 = k then (k, p.2 + v) else q) = m := by
        conv_rhs => rw [← List.map_id m]
        apply List.map_congr_left
        intro q hq
        have hqk : q.1 ≠ k := by
          intro hqk
          exact hn.1 (hp ▸ hqk ▸ List.mem_map_of_mem (fun r => r.1) hq)
        simp [hqk]
      simp only [List.map_cons, if_pos hp, hrest, qValSum_cons]
      ring
    · rw [if_neg hp] at hw
      simp only [List.map_cons, if_neg hp, qValSum_cons, ih hn.2 hw]
      ring

theorem qValSum_addK (m : List (String × ℚ)) (k : String) (v : ℚ)
    (hn : (m.map (fun p => p.1)).Nodup) :
    qValSum (addK m k v) = qValSum m + v := by
  unfold addK setK
  by_cases hany : m.any (fun p => p.1 = k) = true
  · simp only [hany, if_true]
    rcases hw : getK m k with _ | w
    · rw [getK_eq_none_iff] at hw
      rw [hw] at hany
      cases hany
    · simpa [hw] using qValSum_mapUpdate m k w v hn hw
  · have h2 : m.any (fun p => p.1 = k) = false := by
      rwa [Bool.not_eq_true] at hany
    have h0 : getK m k = none := (getK_eq_none_iff m k).mpr h2
    rw [if_neg (by simp [h2])]
    simp [h0, qValSum, List.sum_append]

theorem keys_lookup_sum (m : List (String × ℚ))
    (hn : (m.map (fun p => p.1)).Nodup) :
    ((m.map (fun p => p.1)).map (fun k => (getK m k).getD 0)).sum
      = qValSum m := by
  induction m with
  | nil => rfl
  | cons p m ih =>
    simp only [List.map_cons, List.nodup_cons] at hn ⊢
    have hhead : (getK (p :: m) p.1).getD 0 = p.2 := by
      simp [getK_cons]
    have htail : (m.map (fun q => q.1)).map
        (fun k => (getK (p :: m) k).getD 0)
        = (m.map (fun q => q.1)).map (fun k => (getK m k).getD 0) := by
      apply List.map_congr_left
      intro k hk
      have : p.1 ≠ k := by
        intro he
        exact hn.1 (he ▸ hk)
      simp [getK_cons, this]
    simp only [List.sum_cons, hhead, htail, ih hn.2, qValSum_cons]

theorem insertSorted_perm {α : Type} (le : α → α → Bool) (a : α)
    (l : List α) : (insertSorted le a l).Perm (a :: l) := by
  induction l with
  | nil => exact List.Perm.refl _
  | cons b bs ih =>
    unfold insertSorted
    by_cases h : le b a = true
    · simp only [h, if_true]
      exact (ih.cons b).trans (List.Perm.swap a b bs)
    · rw [if_neg h]

theorem foldl_insertSorted_perm {α : Type} (le : α → α → Bool) :
    ∀ (l acc : List α),
      (l.foldl (fun acc x => insertSorted le x acc) acc).Perm (acc ++ l)
  | [], acc => by simp
  | x :: l, acc => by
    have h2 : (insertSorted le x acc ++ l).Perm (acc ++ x :: l) :=
      ((insertSorted_perm le x acc).append_right l).trans
        (List.perm_middle.symm)
    rw [List.foldl_cons]
    exact (foldl_insertSorted_perm le l (insertSorted le x acc)).trans h2

theorem jsSort_perm {α : Type} (le : α → α → Bool) (l : List α) :
    (jsSort le l).Perm l := by
  simpa using foldl_insertSorted_perm le l []

/-! ### Step lemmas for the order-processing loops -/

theorem processOrderApi_error (im : List (String × Option String))
    (r : String) (st : AState) (o : Order) (e : Unit)
    (htk : getTimeKeyApi o.createdAt r = .error e) :
    processOrderApi im r st o = .error e := by
  simp [processOrderApi, htk]

theorem processOrderApi_earnings (im : List (String × Option String))
    (r : String) (st : AState) (o : Order) (st' : AState)
    (h : processOrderApi im r st o = .ok st') :
    st'.earnings = st.earnings + (orderQty o * orderPriceApi o + orderFee o) := by
  rcases htk : getTimeKeyApi o.createdAt r with e | tk
  · rw [processOrderApi_error im r st o e htk] at h
    cases h
  · simp only [processOrderApi, htk] at h
    obtain rfl := Except.ok.inj h
    rfl

theorem processOrderApi_salesOverTime (im : List (String × Option String))
    (r : String) (st : AState) (o : Order) (st' : AState)
    (h : processOrderApi im r st o = .ok st') :
    ∃ tk, getTimeKeyApi o.createdAt r = .ok tk ∧
      st'.salesOverTime
        = addK st.salesOverTime tk (orderQty o * orderPriceApi o + orderFee o) := by
  rcases htk : getTimeKeyApi o.createdAt r with e | tk
  · rw [processOrderApi_error im r st o e htk] at h
    cases h
  · refine ⟨tk, rfl, ?_⟩
    simp only [processOrderApi, htk] at h
    obtain rfl := Except.ok.inj h
    rfl

theorem processOrderApi_sold (im : List (String × Option String))
    (r : String) (st : AState) (o : Order) (st' : AState)
    (h : processOrderApi im r st o = .ok st') (pid : String) :
    soldOf st'.productMap pid
      = soldOf st.productMap pid
        + (if o.productId = pid then orderQty o else 0) := by
  rcases htk : getTimeKeyApi o.createdAt r with e | tk
  · rw [processOrderApi_error im r st o e htk] at h
    cases h
  · simp only [processOrderApi, htk] at h
    obtain rfl := Except.ok.inj h
    by_cases hpid : o.productId = pid
    · subst hpid
      rcases hacc : getK st.productMap o.productId with _ | a
      · simp [soldOf, getK_setK_self, hacc]
      · simp [soldOf, getK_setK_self, hacc]
    · have hne : pid ≠ o.productId := Ne.symm hpid
      simp [soldOf, getK_setK_ne _ _ _ _ hne, hpid]

theorem processOrderApi_salesByCountry (im : List (String × Option String))
    (r : String) (st : AState) (o : Order) (st' : AState)
    (h : processOrderApi im r st o = .ok st') :
    st'.salesByCountry
      = addK st.salesByCountry
          (sOrD o.deliveryCountry (sOrD (buyerCountry o.buyer) "Unknown"))
          (orderQty o * orderPriceApi o + orderFee o) := by
  rcases htk : getTimeKeyApi o.createdAt r with e | tk
  · rw [processOrderApi_error im r st o e htk] at h
    cases h
  · simp only [processOrderApi, htk] at h
    obtain rfl := Except.ok.inj h
    rfl

theorem processOrderApi_hours (im : List (String × Option String))
    (r : String) (st : AState) (o : Order) (st' : AState)
    (h : processOrderApi im r st o = .ok st') :
    st'.hourBuckets
      = if o.createdAt.valid then
          st.hourBuckets.set o.createdAt.hour
            (st.hourBuckets.getD o.createdAt.hour 0
              + (orderQty o * orderPriceApi o + orderFee o))
        else st.hourBuckets := by
  rcases htk : getTimeKeyApi o.createdAt r with e | tk
  · rw [processOrderApi_error im r st o e htk] at h
    cases h
  · simp only [processOrderApi, htk] at h
    obtain rfl := Except.ok.inj h
    rfl

theorem processOrderSeller_error (im : List (String × Option String))
    (r : String) (st : AState) (o : Order) (e : Unit)
    (htk : getTimeKeyMod o.createdAt r = .error e) :
    processOrderSeller im r st o = .error e := by
  simp [processOrderSeller, htk]

theorem processOrderSeller_earnings (im : List (String × Option String))
    (r : String) (st : AState) (o : Order) (st' : AState)
    (h : processOrderSeller im r st o = .ok st') :
    st'.earnings
      = st.earnings + orderQty o * (orderPriceSeller o + orderFee o) := by
  rcases htk : getTimeKeyMod o.createdAt r with e | tk
  · rw [processOrderSeller_error im r st o e htk] at h
    cases h
  · simp only [processOrderSeller, htk] at h
    obtain rfl := Except.ok.inj h
    rfl

theorem processOrderSeller_salesOverTime (im : List (String × Option String))
    (r : String) (st : AState) (o : Order) (st' : AState)
    (h : processOrderSeller im r st o = .ok st') :
    ∃ tk, getTimeKeyMod o.createdAt r = .ok tk ∧
      st'.salesOverTime
        = addK st.salesOverTime tk
            (orderQty o * (orderPriceSeller o + orderFee o)) := by
  rcases htk : getTimeKeyMod o.createdAt r with e | tk
  · rw [processOrderSeller_error im r st o e htk] at h
    cases h
  · refine ⟨tk, rfl, ?_⟩
    simp only [processOrderSeller, htk] at h
    obtain rfl := Except.ok.inj h
    rfl

theorem processOrderSeller_salesByCountry (im : List (String × Option String))
    (r : String) (st : AState) (o : Order) (st' : AState)
    (h : processOrderSeller im r st o = .ok st') :
    st'.salesByCountry
      = addK st.salesByCountry (sOrD o.deliveryCountry "Unknown")
          (orderQty o * (orderPriceSeller o + orderFee o)) := by
  rcases htk : getTimeKeyMod o.createdAt r with e | tk
  · rw [processOrderSeller_error im r st o e htk] at h
    cases h
  · simp only [processOrderSeller, htk] at h
    obtain rfl := Except.ok.inj h
    rfl

theorem bucketInv_init : bucketInv initState := by
  constructor <;> simp [initState, qValSum]

theorem processOrderApi_bucketInv (im : List (String × Option String))
    (r : String) (st : AState) (o : Order) (st' : AState)
    (h : processOrderApi im r st o = .ok st') (hi : bucketInv st) :
    bucketInv st' := by
  obtain ⟨tk, _, hsot⟩ := processOrderApi_salesOverTime im r st o st' h
  have hearn := processOrderApi_earnings im r st o st' h
  constructor
  · rw [hsot, hearn, qValSum_addK _ _ _ hi.2, hi.1]
  · rw [hsot]
    exact nodup_keys_setK _ _ _ hi.2

theorem processOrdersApi_bucketInv (im : List (String × Option String))
    (r : String) :
    ∀ (l : List Order) (st st' : AState),
      processOrdersApi im r st l = .ok st' → bucketInv st → bucketInv st'
  | [], st, st', h, hi => by
    simp only [processOrdersApi] at h
    obtain rfl := Except.ok.inj h
    exact hi
  | o :: l, st, st', h, hi => by
    simp only [processOrdersApi] at h
    rcases h1 : processOrderApi im r st o with e | st1
    · rw [h1] at h
      cases h
    · rw [h1] at h
      exact processOrdersApi_bucketInv im r l st1 st' h
        (processOrderApi_bucketInv im r st o st1 h1 hi)

theorem processOrdersApi_sold (im : List (String × Option String))
    (r : String) :
    ∀ (l : List Order) (st st' : AState),
      processOrdersApi im r st l = .ok st' →
      ∀ pid, soldOf st'.productMap pid
        = soldOf st.productMap pid
          + ((l.filter (fun o => o.productId = pid)).map orderQty).sum
  | [], st, st', h, pid => by
    simp only [processOrdersApi] at h
    obtain rfl := Except.ok.inj h
    simp
  | o :: l, st, st', h, pid => by
    simp only [processOrdersApi] at h
    rcases h1 : processOrderApi im r st o with e | st1
    · rw [h1] at h
      cases h
    · rw [h1] at h
      have hstep := processOrderApi_sold im r st o st1 h1 pid
      have hrest := processOrdersApi_sold im r l st1 st' h pid
      by_cases hp : o.productId = pid
      · rw [hrest, hstep, if_pos hp]
        have hf : (o :: l).filter (fun o => o.productId = pid)
            = o :: l.filter (fun o => o.productId = pid) := by
          simp [List.filter_cons, hp]
        rw [hf]
        simp [add_assoc]
      · rw [hrest, hstep, if_neg hp]
        have hf : (o :: l).filter (fun o => o.productId = pid)
            = l.filter (fun o => o.productId = pid) := by
          simp [List.filter_cons, hp]
        rw [hf]
        ring

/-! ### Frame lemmas for the cart/wishlist merges -/

theorem AccFrame.refl (a : ProductAcc) : AccFrame a a :=
  ⟨rfl, rfl, rfl, rfl, rfl, rfl, rfl⟩

theorem AccFrame.trans {a b c : ProductAcc} (h1 : AccFrame a b)
    (h2 : AccFrame b c) : AccFrame a c :=
  ⟨h2.idEq.trans h1.idEq, h2.nameEq.trans h1.nameEq,
   h2.priceEq.trans h1.priceEq, h2.costEq.trans h1.costEq,
   h2.soldEq.trans h1.soldEq, h2.feesEq.trans h1.feesEq,
   h2.imageEq.trans h1.imageEq⟩

theorem mapFrame_refl (m : List (String × ProductAcc)) : mapFrame m m := by
  intro pid
  constructor
  · intro a ha
    exact ⟨a, ha, AccFrame.refl a⟩
  · intro hnone b hb
    rw [hnone] at hb
    cases hb

theorem mapFrame_trans {m m' m'' : List (String × ProductAcc)}
    (h1 : mapFrame m m') (h2 : mapFrame m' m'') : mapFrame m m'' := by
  intro pid
  constructor
  · intro a ha
    obtain ⟨b, hb, hab⟩ := (h1 pid).1 a ha
    obtain ⟨c, hc, hbc⟩ := (h2 pid).1 b hb
    exact ⟨c, hc, hab.trans hbc⟩
  · intro hnone c hc
    rcases hmid : getK m' pid with _ | b
    · exact (h2 pid).2 hmid c hc
    · have hz := (h1 pid).2 hnone b hmid
      obtain ⟨c', hc', hbc⟩ := (h2 pid).1 b hmid
      rw [hc] at hc'
      obtain rfl := Option.some.inj hc'
      exact ⟨hbc.soldEq.trans hz.1, hbc.feesEq.trans hz.2⟩

theorem mergeCountsInto_nil (seed : String → ProductAcc) (isCart : Bool)
    (pm : List (String × ProductAcc)) :
    mergeCountsInto seed isCart pm [] = pm := rfl

theorem mergeCountsInto_cons (seed : String → ProductAcc) (isCart : Bool)
    (pm : List (String × ProductAcc)) (kv : String × ℚ)
    (counts : List (String × ℚ)) :
    mergeCountsInto seed isCart pm (kv :: counts)
      = mergeCountsInto seed isCart
          (setK pm kv.1
            (if isCart then
              { ((getK pm kv.1).getD (seed kv.1)) with inCart := kv.2 }
             else
              { ((getK pm kv.1).getD (seed kv.1)) with inWishlist := kv.2 }))
          counts := rfl

theorem mergeStep_mapFrame (seed : String → ProductAcc) (isCart : Bool)
    (pm : List (String × ProductAcc)) (kv : String × ℚ)
    (hseed : (seed kv.1).sold = 0 ∧ (seed kv.1).deliveryFees = 0) :
    mapFrame pm
      (setK pm kv.1
        (if isCart then
          { ((getK pm kv.1).getD (seed kv.1)) with inCart := kv.2 }
         else
          { ((getK pm kv.1).getD (seed kv.1)) with inWishlist := kv.2 })) := by
  intro pid
  by_cases hp : pid = kv.1
  · subst hp
    constructor
    · intro a ha
      refine ⟨_, getK_setK_self _ _ _, ?_⟩
      rw [ha]
      cases isCart <;> exact ⟨rfl, rfl, rfl, rfl, rfl, rfl, rfl⟩
    · intro hnone b hb
      rw [getK_setK_self] at hb
      obtain rfl := Option.some.inj hb.symm
      rw [hnone]
      cases isCart <;> simpa using hseed
  · constructor
    · intro a ha
      refine ⟨a, ?_, AccFrame.refl a⟩
      rw [getK_setK_ne _ _ _ _ hp]
      exact ha
    · intro hnone b hb
      rw [getK_setK_ne _ _ _ _ hp, hnone] at hb
      cases hb

theorem mergeCountsInto_mapFrame (seed : String → ProductAcc) (isCart : Bool)
    (hseed : ∀ pid, (seed pid).sold = 0 ∧ (seed pid).deliveryFees = 0) :
    ∀ (counts : List (String × ℚ)) (pm : List (String × ProductAcc)),
      mapFrame pm (mergeCountsInto seed isCart pm counts)
  | [], pm => mapFrame_refl pm
  | kv :: counts, pm => by
    rw [mergeCountsInto_cons]
    exact mapFrame_trans (mergeStep_mapFrame seed isCart pm kv (hseed kv.1))
      (mergeCountsInto_mapFrame seed isCart hseed counts _)

theorem apiMergedPM_mapFrame (products : List Product) (cart : List CartEntry)
    (wishlist : List WishlistEntry) (pm : List (String × ProductAcc)) :
    mapFrame pm (apiMergedPM products cart wishlist pm) := by
  unfold apiMergedPM
  exact mapFrame_trans
    (mergeCountsInto_mapFrame _ true (fun pid => ⟨rfl, rfl⟩) _ _)
    (mergeCountsInto_mapFrame _ false (fun pid => ⟨rfl, rfl⟩) _ _)

theorem sellerMergedPM_mapFrame (seller : String) (ordersAll : List Order)
    (cartAll : List CartEntry) (wishlistAll : List WishlistEntry)
    (productsAll : List Product) (pm : List (String × ProductAcc)) :
    mapFrame pm
      (sellerMergedPM seller ordersAll cartAll wishlistAll productsAll pm) := by
  unfold sellerMergedPM
  exact mapFrame_trans
    (mergeCountsInto_mapFrame _ true (fun pid => ⟨rfl, rfl⟩) _ _)
    (mergeCountsInto_mapFrame _ false (fun pid => ⟨rfl, rfl⟩) _ _)

theorem runApi_ok_inv (seller range : String) (orders : List Order)
    (products : List Product) (cart : List CartEntry)
    (wishlist : List WishlistEntry) (st2 : AState) (r : ApiResult)
    (h : runApi seller range orders products cart wishlist = .ok (st2, r)) :
    ∃ st1,
      processOrdersApi (apiImageMap products) range initState orders = .ok st1
      ∧ st2 = { st1 with
          productMap := apiMergedPM products cart wishlist st1.productMap }
      ∧ r = buildApiResult seller range orders products st2 := by
  rcases hpo : processOrdersApi (apiImageMap products) range initState orders
    with e | st1
  · simp [runApi, hpo] at h
  · simp only [runApi, hpo] at h
    have h' := Except.ok.inj h
    obtain ⟨h1, h2⟩ := Prod.mk.inj h'
    subst h1
    subst h2
    exact ⟨st1, rfl, rfl, rfl⟩

theorem runSeller_ok_inv (seller range : String) (ordersAll : List Order)
    (cartAll : List CartEntry) (wishlistAll : List WishlistEntry)
    (productsAll : List Product) (st2 : AState) (r : SellerResult)
    (h : runSeller seller range ordersAll cartAll wishlistAll productsAll
      = .ok (st2, r)) :
    ∃ st1,
      processOrdersSeller (sellerImageMap seller productsAll) range initState
        (ordersAll.filter (fun o => o.seller = seller)) = .ok st1
      ∧ st2 = { st1 with
          productMap := sellerMergedPM seller ordersAll cartAll wishlistAll
            productsAll st1.productMap }
      ∧ r = buildSellerResult seller
          (ordersAll.filter (fun o => o.seller = seller))
          (cartAll.filter (fun c => c.seller = seller)) productsAll st2 := by
  rcases hpo : processOrdersSeller (sellerImageMap seller productsAll) range
      initState (ordersAll.filter (fun o => o.seller = seller)) with e | st1
  · simp [runSeller, hpo] at h
  · simp only [runSeller, hpo] at h
    have h' := Except.ok.inj h
    obtain ⟨h1, h2⟩ := Prod.mk.inj h'
    subst h1
    subst h2
    exact ⟨st1, rfl, rfl, rfl⟩

theorem apiRoute_ok_inv (seller range : Option String) (orders : List Order)
    (products : List Product) (cart : List CartEntry)
    (wishlist : List WishlistEntry) (r : ApiResult)
    (h : apiAnalyticsRoute seller range orders products cart wishlist = .ok r) :
    ∃ s st2, seller = some s ∧ s ≠ ""
      ∧ runApi s (match range with | some rg => rg | none => "day")
          orders products cart wishlist = .ok (st2, r) := by
  cases seller with
  | none => simp [apiAnalyticsRoute] at h
  | some s =>
    by_cases hs : s = ""
    · simp [apiAnalyticsRoute, hs] at h
    · cases range with
      | none =>
        simp only [apiAnalyticsRoute, if_neg hs] at h
        rcases hr : runApi s "day" orders products cart wishlist with e | pr
        · rw [hr] at h
          cases h
        · obtain ⟨st2, res⟩ := pr
          rw [hr] at h
          have hres : res = r := Except.ok.inj h
          subst hres
          exact ⟨s, st2, rfl, hs, hr⟩
      | some rg =>
        simp only [apiAnalyticsRoute, if_neg hs] at h
        rcases hr : runApi s rg orders products cart wishlist with e | pr
        · rw [hr] at h
          cases h
        · obtain ⟨st2, res⟩ := pr
          rw [hr] at h
          have hres : res = r := Except.ok.inj h
          subst hres
          exact ⟨s, st2, rfl, hs, hr⟩

/-! ### Claim theorems -/

/-- C7: with all four input collections empty, the api route returns a
zero-valued result (earnings 0, totalOrders 0, empty profitMargins,
customers all zero) rather than an error. -/
theorem claim7_empty_input (s rg : String) (hs : s ≠ "") :
    apiAnalyticsRoute (some s) (some rg) [] [] [] [] =
    .ok { products := []
          storeName := s
          earnings := 0
          totalOrders := 0
          totalProducts := 0
          avgOrderValue := 0
          months := []
          monthlySales := []
          bestTimeLabels := (List.range 24).map (fun i => toString i ++ ":00")
          bestTimeSales := List.replicate 24 0
          salesByRegion := []
          profitMargins := []
          funnel := Funnel.mk 0 0 0 0
          customers := CustomerStats.mk 0 0 0
          range := rg } := by
  simp [apiAnalyticsRoute, runApi, processOrdersApi, buildApiResult, initState,
    jsSort, apiMergedPM, apiRelevantCart, apiRelevantWish, groupByProductIdApi,
    mergeCountsInto, apiImageMap, apiCostMap, hs]

/-- C7 witness at a concrete seller and granularity. -/
theorem claim7_empty_input_witness :
    apiAnalyticsRoute (some "acme") (some "day") [] [] [] [] =
    .ok { products := []
          storeName := "acme"
          earnings := 0
          totalOrders := 0
          totalProducts := 0
          avgOrderValue := 0
          months := []
          monthlySales := []
          bestTimeLabels := (List.range 24).map (fun i => toString i ++ ":00")
          bestTimeSales := List.replicate 24 0
          salesByRegion := []
          profitMargins := []
          funnel := Funnel.mk 0 0 0 0
          customers := CustomerStats.mk 0 0 0
          range := "day" } :=
  claim7_empty_input "acme" "day" (by decide)

/-- C8: a missing seller identifier makes both routes answer with the
InvalidArgument-class condition (HTTP 400) without computing a result, and
a present (nonempty) seller identifier never produces that condition. -/
theorem claim8_seller_guard :
    (∀ (range : Option String) (orders : List Order) (products : List Product)
        (cart : List CartEntry) (wishlist : List WishlistEntry),
      apiAnalyticsRoute none range orders products cart wishlist
          = .error .invalidArgument
        ∧ sellerAnalyticsRoute none range orders cart wishlist products
          = .error .invalidArgument)
    ∧ (∀ (s : String) (range : Option String) (orders : List Order)
        (products : List Product) (cart : List CartEntry)
        (wishlist : List WishlistEntry), s ≠ "" →
      apiAnalyticsRoute (some s) range orders products cart wishlist
          ≠ .error .invalidArgument
        ∧ sellerAnalyticsRoute (some s) range orders cart wishlist products
          ≠ .error .invalidArgument) := by
  constructor
  · intro range orders products cart wishlist
    constructor <;> rfl
  · intro s range orders products cart wishlist hs
    constructor
    · cases range with
      | none =>
        simp only [apiAnalyticsRoute, if_neg hs]
        rcases hr : runApi s "day" orders products cart wishlist with e | pr
        · simp
        · obtain ⟨st2, res⟩ := pr
          simp
      | some rg =>
        simp only [apiAnalyticsRoute, if_neg hs]
        rcases hr : runApi s rg orders products cart wishlist with e | pr
        · simp
        · obtain ⟨st2, res⟩ := pr
          simp
    · simp only [sellerAnalyticsRoute, if_neg hs]
      rcases hr : runSeller s (sOrD range "month") orders cart wishlist
          products with e | pr
      · simp
      · obtain ⟨st2, res⟩ := pr
        simp

/-- C10: the api payload's `avgOrderValue` is the guarded quotient: zero
for an empty order list, `earnings / totalOrders` otherwise (and
`totalOrders` is the order count), so the division is only taken behind a
positive-divisor guard. -/
theorem claim10_avg_order_value (seller range : Option String)
    (orders : List Order) (products : List Product) (cart : List CartEntry)
    (wishlist : List WishlistEntry) (r : ApiResult)
    (h : apiAnalyticsRoute seller range orders products cart wishlist = .ok r) :
    r.totalOrders = orders.length
    ∧ (orders.length = 0 → r.avgOrderValue = 0)
    ∧ (0 < orders.length →
        r.avgOrderValue = r.earnings / (orders.length : ℚ)) := by
  obtain ⟨s, st2, -, -, hrun⟩ :=
    apiRoute_ok_inv seller range orders products cart wishlist r h
  obtain ⟨st1, hpo, hst2, hr⟩ :=
    runApi_ok_inv s _ orders products cart wishlist st2 r hrun
  subst hr
  refine ⟨by simp [buildApiResult], ?_, ?_⟩
  · intro h0
    simp [buildApiResult, h0]
  · intro h0
    simp [buildApiResult, h0]

/-- C10 witness: at the empty concrete input the guarded branch yields 0. -/
theorem claim10_avg_order_value_witness :
    (emptyApiResult "acme" "day").avgOrderValue = 0 :=
  (claim10_avg_order_value (some "acme") (some "day") [] [] [] []
    (emptyApiResult "acme" "day")
    (by simp [apiAnalyticsRoute, runApi, processOrdersApi, buildApiResult,
      initState, jsSort, apiMergedPM, apiRelevantCart, apiRelevantWish,
      groupByProductIdApi, mergeCountsInto, apiImageMap, apiCostMap,
      emptyApiResult])).2.1 rfl

theorem buildApiResult_monthlySales (seller range : String)
    (orders : List Order) (products : List Product) (st : AState) :
    (buildApiResult seller range orders products st).monthlySales
      = (jsSort jsStrLe (st.salesOverTime.map (fun p => p.1))).map
          (fun k => (getK st.salesOverTime k).getD 0) := by
  simp [buildApiResult]

theorem buildApiResult_earnings (seller range : String)
    (orders : List Order) (products : List Product) (st : AState) :
    (buildApiResult seller range orders products st).earnings = st.earnings := by
  simp [buildApiResult]

/-- C3: whenever the api route returns a payload, the sum of the
`monthlySales` buckets equals the `earnings` total (bucketed revenue
reconciles with total revenue). -/
theorem claim3_bucket_sum (seller range : Option String) (orders : List Order)
    (products : List Product) (cart : List CartEntry)
    (wishlist : List WishlistEntry) (r : ApiResult)
    (h : apiAnalyticsRoute seller range orders products cart wishlist = .ok r) :
    r.monthlySales.sum = r.earnings := by
  obtain ⟨s, st2, -, -, hrun⟩ :=
    apiRoute_ok_inv seller range orders products cart wishlist r h
  obtain ⟨st1, hpo, hst2, hr⟩ :=
    runApi_ok_inv s _ orders products cart wishlist st2 r hrun
  have hinv : bucketInv st1 :=
    processOrdersApi_bucketInv _ _ orders initState st1 hpo bucketInv_init
  have hsot : st2.salesOverTime = st1.salesOverTime := by rw [hst2]
  have hearn : st2.earnings = st1.earnings := by rw [hst2]
  have hnodup : (st2.salesOverTime.map (fun p => p.1)).Nodup := by
    rw [hsot]
    exact hinv.2
  subst hr
  rw [buildApiResult_monthlySales, buildApiResult_earnings]
  have hperm :=
    (jsSort_perm jsStrLe (st2.salesOverTime.map (fun p => p.1))).map
      (fun k => (getK st2.salesOverTime k).getD 0)
  rw [hperm.sum_eq, keys_lookup_sum st2.salesOverTime hnodup, hsot, hinv.1,
    ← hearn]

theorem cexApiRun :
    apiAnalyticsRoute (some "acme") (some "day") [cexOrder1, cexOrder2]
      [cexProduct] [] [] = .ok cexApiResult := by
  norm_num +decide [apiAnalyticsRoute, runApi, processOrdersApi,
    processOrderApi, buildApiResult, initState, jsSort, insertSorted,
    apiMergedPM, apiRelevantCart, apiRelevantWish, groupByProductIdApi,
    mergeCountsInto, apiImageMap, apiCostMap, getTimeKeyApi, cexOrder1,
    cexOrder2, cexProduct, cexDate1, cexDate2, getK, setK, addK, qOrD, sOrD,
    sOrN, jsOrStr, orderPriceApi, orderQty, orderFee, imgGet, buyerId,
    buyerCountry, cexApiResult, isoDayStr]

/-- C3 witness: at the Scenario A input, `sum [35, 20] = 55`. -/
theorem claim3_bucket_sum_witness :
    cexApiResult.monthlySales.sum = cexApiResult.earnings :=
  claim3_bucket_sum (some "acme") (some "day") [cexOrder1, cexOrder2]
    [cexProduct] [] [] cexApiResult cexApiRun

/-- C1 counterexample: in Scenario A (one catalog product with internal
identifier `m1` and external identifier `P-100`; one order per identifier
form, quantities 3 and 2) the api route emits TWO accumulators, with
`sold = 3` and `sold = 2`, not a single accumulator with `sold = 5`. -/
theorem claim1_counterexample :
    cexProduct.mongoId = "m1" ∧ cexProduct.id = "P-100"
    ∧ cexOrder1.productId = "m1" ∧ cexOrder2.productId = "P-100"
    ∧ apiAnalyticsRoute (some "acme") (some "day") [cexOrder1, cexOrder2]
        [cexProduct] [] [] = .ok cexApiResult
    ∧ cexApiResult.products.map (fun a => (a.id, a.sold))
        = [("m1", 3), ("P-100", 2)]
    ∧ orderQty cexOrder1 + orderQty cexOrder2 = 5 := by
  refine ⟨rfl, rfl, rfl, rfl, cexApiRun, ?_, ?_⟩ <;>
    norm_num [cexApiResult, orderQty, qOrD, cexOrder1, cexOrder2]

/-- C1 amended: accumulators are keyed by the raw `order.productId`; for
every key its `sold` is the sum of the quantities of exactly the orders
bearing that literal identifier.  Two orders that reference one logical
product by its two identifier forms therefore feed two distinct
accumulators (the identifier reconciliation is applied only to the image
and cost lookup maps, not to the accumulator keys). -/
theorem claim1_amended (im : List (String × Option String)) (range : String)
    (orders : List Order) (st st' : AState)
    (h : processOrdersApi im range st orders = .ok st') (pid : String) :
    soldOf st'.productMap pid
      = soldOf st.productMap pid
        + ((orders.filter (fun o => o.productId = pid)).map orderQty).sum :=
  processOrdersApi_sold im range orders st st' h pid

theorem processOrderApi_cex :
    processOrderApi [] "day" initState cexOrder1 = .ok cexStApi1 := by
  norm_num +decide [processOrderApi, getTimeKeyApi, initState, cexOrder1,
    cexDate1, cexStApi1, getK, setK, addK, qOrD, sOrD, sOrN, orderPriceApi,
    orderQty, orderFee, imgGet, buyerId, buyerCountry, isoDayStr]

theorem processOrdersApi_cex :
    processOrdersApi [] "day" initState [cexOrder1] = .ok cexStApi1 := by
  simp [processOrdersApi, processOrderApi_cex]

/-- C1 amended witness: `sold` for key `m1` after one order of quantity 3. -/
theorem claim1_amended_witness :
    soldOf cexStApi1.productMap "m1"
      = soldOf initState.productMap "m1"
        + (([cexOrder1].filter (fun o => o.productId = "m1")).map
            orderQty).sum :=
  claim1_amended [] "day" [cexOrder1] initState cexStApi1
    processOrdersApi_cex "m1"

theorem sum_set_getD : ∀ (l : List ℚ) (i : Nat) (v : ℚ), i < l.length →
    (l.set i (l.getD i 0 + v)).sum = l.sum + v
  | [], i, v, h => by simp at h
  | x :: l, 0, v, h => by
    simp [List.set]
    ring
  | x :: l, i + 1, v, h => by
    have hlt : i < l.length := by simpa using h
    have hrec := sum_set_getD l i v hlt
    simp only [List.set, List.getD_cons_succ, List.sum_cons, hrec]
    ring

/-- C2 amended: in the api route every processed order adds exactly
`quantity * price + deliveryFee` to the earnings total, to the time-series
values, to the country totals and (for a valid timestamp) to the hour
histogram; in the seller route the per-order contribution to earnings is
`quantity * (price + deliveryFee)` instead (the delivery fee is scaled by
the quantity there). -/
theorem claim2_amended (im : List (String × Option String)) (rg : String)
    (st : AState) (o : Order) (st' : AState) :
    (processOrderApi im rg st o = .ok st' →
      st'.earnings = st.earnings + (orderQty o * orderPriceApi o + orderFee o)
      ∧ ((st.salesOverTime.map (fun p => p.1)).Nodup →
          qValSum st'.salesOverTime
            = qValSum st.salesOverTime
              + (orderQty o * orderPriceApi o + orderFee o))
      ∧ ((st.salesByCountry.map (fun p => p.1)).Nodup →
          qValSum st'.salesByCountry
            = qValSum st.salesByCountry
              + (orderQty o * orderPriceApi o + orderFee o))
      ∧ (o.createdAt.valid = true →
          o.createdAt.hour < st.hourBuckets.length →
          st'.hourBuckets.sum
            = st.hourBuckets.sum
              + (orderQty o * orderPriceApi o + orderFee o)))
    ∧ (processOrderSeller im rg st o = .ok st' →
        st'.earnings
          = st.earnings + orderQty o * (orderPriceSeller o + orderFee o)) := by
  constructor
  · intro h
    refine ⟨processOrderApi_earnings _ _ _ _ _ h, ?_, ?_, ?_⟩
    · intro hn
      obtain ⟨tk, -, hsot⟩ := processOrderApi_salesOverTime _ _ _ _ _ h
      rw [hsot, qValSum_addK _ _ _ hn]
    · intro hn
      rw [processOrderApi_salesByCountry _ _ _ _ _ h, qValSum_addK _ _ _ hn]
    · intro hv hh
      rw [processOrderApi_hours _ _ _ _ _ h, if_pos hv, sum_set_getD _ _ _ hh]
  · exact processOrderSeller_earnings _ _ _ _ _

/-- C2 counterexample: the seller route computes
`quantity * (price + deliveryFee)`: for quantity 2, price 10, fee 5 it
folds 30 into earnings, while `quantity * price + fee` would be 25. -/
theorem claim2_counterexample :
    (sellerAnalyticsRoute (some "s1") (some "month") [cexOrderB] [] [] []).map
        (fun r => r.earnings) = .ok 30
    ∧ orderQty cexOrderB * orderPriceSeller cexOrderB + orderFee cexOrderB = 25
    ∧ (30 : ℚ) ≠ 25 := by
  refine ⟨?_, ?_, by norm_num⟩
  · norm_num +decide [sellerAnalyticsRoute, runSeller, processOrdersSeller,
      processOrderSeller, buildSellerResult, initState, jsSort, insertSorted,
      sellerMergedPM, groupByProductIdMod, mergeCountsInto, sellerImageMap,
      sellerCostMap, getTimeKeyMod, cexOrderB, cexDate1, getK, setK, addK,
      qOrD, sOrD, sOrN, orderPriceSeller, orderQty, orderFee, imgGet,
      buyerId, Except.map, jsWeekNumber, padStart2, isoDayStr]
  · norm_num [orderQty, orderPriceSeller, orderFee, qOrD, cexOrderB]

/-- C2 witness: the api-route delta at a concrete order
(3 × 10 + 5 = 35). -/
theorem claim2_amended_witness :
    cexStApi1.earnings
      = initState.earnings
        + (orderQty cexOrder1 * orderPriceApi cexOrder1 + orderFee cexOrder1) :=
  ((claim2_amended [] "day" initState cexOrder1 cexStApi1).1
    processOrderApi_cex).1

/-- C4 counterexample: an order with a missing timestamp but perfectly
computable revenue (25) makes the whole api aggregation throw, so the
route answers 500 instead of returning totals without that order's time
buckets. -/
theorem claim4_counterexample :
    apiAnalyticsRoute (some "s1") (some "day") [cexOrderBad] [] [] []
        = .error .internalError
    ∧ orderQty cexOrderBad * orderPriceApi cexOrderBad + orderFee cexOrderBad
        = 25 := by
  constructor
  · norm_num +decide [apiAnalyticsRoute, runApi, processOrdersApi,
      processOrderApi, initState, apiImageMap, apiCostMap, getTimeKeyApi,
      cexOrderBad, cexInvalidDate, getK, setK, addK, qOrD, sOrD, sOrN,
      orderPriceApi, orderQty, orderFee, imgGet, buyerId, buyerCountry]
  · norm_num [orderQty, orderPriceApi, orderFee, qOrD, cexOrderBad]

/-- C4 amended: an invalid timestamp aborts the api order processing with
an exception under granularities `hour`, `day`, `week` and `month` (the
`toISOString` call throws); only under `year` does processing continue, and
then the order's revenue is still added to earnings but is bucketed under
the literal time key `"NaN"`, while the 24 hour-histogram slots stay
untouched. -/
theorem claim4_amended (im : List (String × Option String)) (st : AState)
    (o : Order) (hv : o.createdAt.valid = false) :
    (processOrderApi im "hour" st o = .error ()
     ∧ processOrderApi im "day" st o = .error ()
     ∧ processOrderApi im "week" st o = .error ()
     ∧ processOrderApi im "month" st o = .error ())
    ∧ ∀ st', processOrderApi im "year" st o = .ok st' →
        st'.earnings
            = st.earnings + (orderQty o * orderPriceApi o + orderFee o)
        ∧ st'.salesOverTime
            = addK st.salesOverTime "NaN"
                (orderQty o * orderPriceApi o + orderFee o)
        ∧ st'.hourBuckets = st.hourBuckets := by
  constructor
  · refine ⟨?_, ?_, ?_, ?_⟩ <;>
      exact processOrderApi_error _ _ _ _ () (by simp [getTimeKeyApi, hv])
  · intro st' h
    have h1 := processOrderApi_earnings _ _ _ _ _ h
    obtain ⟨tk, htk, hsot⟩ := processOrderApi_salesOverTime _ _ _ _ _ h
    have htk2 : tk = "NaN" := by
      have := htk.symm
      simpa [getTimeKeyApi, hv] using this
    have hhb := processOrderApi_hours _ _ _ _ _ h
    refine ⟨h1, by rw [hsot, htk2], ?_⟩
    rw [hhb, if_neg (by simp [hv])]

/-- C4 amended witness: the `day` branch aborts on the concrete
missing-timestamp order. -/
theorem claim4_amended_witness :
    processOrderApi [] "day" initState cexOrderBad = .error () :=
  ((claim4_amended [] initState cexOrderBad rfl).1).2.1

theorem padStart2_toString_len : ∀ w : Nat, w < 55 →
    (padStart2 (toString w)).length = 2 := by
  decide

theorem jsWeekNumber_lt (d : JSDate) (h1 : d.dayOfYear ≤ 365)
    (h2 : d.msOfDay < 86400000) (h3 : d.jan1Weekday ≤ 6) :
    jsWeekNumber d < 55 := by
  unfold jsWeekNumber
  have hle : d.dayOfYear * 86400000 + d.msOfDay
      + (d.jan1Weekday + 1) * 86400000 + (604800000 - 1)
      ≤ 32831999998 := by omega
  calc (d.dayOfYear * 86400000 + d.msOfDay
        + (d.jan1Weekday + 1) * 86400000 + (604800000 - 1)) / 604800000
      ≤ 32831999998 / 604800000 := Nat.div_le_div_right hle
    _ < 55 := by norm_num

/-- C5 counterexample: for Saturday March 9, 2024 the api route's week
branch yields the week-start date `2024-03-03` - a `YYYY-MM-DD` string with
no `W` at all - while the module-level `getTimeKey` yields `2024-W10`. -/
theorem claim5_counterexample :
    getTimeKeyApi cexDate3 "week" = .ok "2024-03-03"
    ∧ ("2024-03-03".data.contains 'W') = false
    ∧ getTimeKeyMod cexDate3 "week" = .ok "2024-W10" := by
  refine ⟨rfl, by decide, rfl⟩

/-- C5 amended: only the module-level `getTimeKey` (used by the seller
route) produces `YYYY-Www` week keys - the year, a literal `W` and a
two-digit week number computed from the day-of-year and the weekday offset
of January 1; the api route's week branch instead returns the week-start
date in `YYYY-MM-DD` form. -/
theorem claim5_amended (d : JSDate) (hv : d.valid = true)
    (h1 : d.dayOfYear ≤ 365) (h2 : d.msOfDay < 86400000)
    (h3 : d.jan1Weekday ≤ 6) :
    getTimeKeyMod d "week"
        = .ok (toString d.year ++ "-W" ++ padStart2 (toString (jsWeekNumber d)))
    ∧ (padStart2 (toString (jsWeekNumber d))).length = 2
    ∧ getTimeKeyApi d "week"
        = .ok (isoDayStr (weekStartYMD d).1 (weekStartYMD d).2.1
            (weekStartYMD d).2.2) := by
  refine ⟨by simp [getTimeKeyMod, hv], ?_, by simp [getTimeKeyApi, hv]⟩
  exact padStart2_toString_len _ (jsWeekNumber_lt d h1 h2 h3)

/-- C5 amended witness at the concrete Saturday. -/
theorem claim5_amended_witness :
    getTimeKeyMod cexDate3 "week"
        = .ok (toString cexDate3.year ++ "-W"
            ++ padStart2 (toString (jsWeekNumber cexDate3)))
    ∧ (padStart2 (toString (jsWeekNumber cexDate3))).length = 2
    ∧ getTimeKeyApi cexDate3 "week"
        = .ok (isoDayStr (weekStartYMD cexDate3).1 (weekStartYMD cexDate3).2.1
            (weekStartYMD cexDate3).2.2) :=
  claim5_amended cexDate3 rfl (by decide) (by decide) (by decide)

/-- C6 amended: the seller route's `profitMargins` carries one element per
accumulator - including accumulators with `sold = 0` - and each element
satisfies `totalRevenue = sold * (price + cost)`,
`profitPerUnit = price - cost` and `totalProfit = profitPerUnit * sold`;
the api route's `profitMargins` does restrict to accumulators with
`sold > 0` but each element carries only `name`, `price`, `cost` and
`sold` (no derived figures). -/
theorem claim6_amended :
    (∀ (seller range : String) (ordersAll : List Order)
        (cartAll : List CartEntry) (wishlistAll : List WishlistEntry)
        (productsAll : List Product) (st : AState) (r : SellerResult),
      runSeller seller range ordersAll cartAll wishlistAll productsAll
          = .ok (st, r) →
      r.profitMargins.length = st.productMap.length
      ∧ ∀ e ∈ r.profitMargins,
          e.totalRevenue = e.sold * (e.price + e.cost)
          ∧ e.profitPerUnit = e.price - e.cost
          ∧ e.totalProfit = e.profitPerUnit * e.sold)
    ∧ (∀ (seller range : String) (orders : List Order)
        (products : List Product) (cart : List CartEntry)
        (wishlist : List WishlistEntry) (st : AState) (r : ApiResult),
      runApi seller range orders products cart wishlist = .ok (st, r) →
      r.profitMargins
        = ((st.productMap.map (fun p => p.2)).filter
            (fun p => decide (0 < p.sold))).map
            (fun p => PMApi.mk p.name p.price p.cost p.sold)) := by
  constructor
  · intro seller range ordersAll cartAll wishlistAll productsAll st r h
    obtain ⟨st1, hpo, hst, hr⟩ := runSeller_ok_inv seller range ordersAll
      cartAll wishlistAll productsAll st r h
    subst hr
    constructor
    · simp [buildSellerResult]
    · intro e he
      simp only [buildSellerResult, List.mem_map] at he
      obtain ⟨p, hp, rfl⟩ := he
      exact ⟨rfl, rfl, rfl⟩
  · intro seller range orders products cart wishlist st r h
    obtain ⟨st1, hpo, hst, hr⟩ := runApi_ok_inv seller range orders products
      cart wishlist st r h
    subst hr
    simp [buildApiResult]

/-- C6 counterexample: a cart-only product of the seller (no orders at all)
still appears in the seller route's `profitMargins`, with `sold = 0`
(`totalRevenue 0`, `profitPerUnit 7`, `totalProfit 0`), contradicting the
claimed exclusion of zero-sold accumulators. -/
theorem claim6_counterexample :
    (sellerAnalyticsRoute (some "s1") (some "month") [] [cexCart1] [] []).map
      (fun r => r.profitMargins.map
        (fun e => (e.sold, e.totalRevenue, e.profitPerUnit, e.totalProfit)))
      = .ok [(0, 0, 7, 0)] := by
  norm_num +decide [sellerAnalyticsRoute, runSeller, processOrdersSeller,
    buildSellerResult, initState, jsSort, insertSorted, sellerMergedPM,
    groupByProductIdMod, mergeCountsInto, sellerCartSeed, sellerWishSeed,
    sellerImageMap, sellerCostMap, cexCart1, getK, setK, addK, qOrD, sOrD,
    sOrN, imgGet, Except.map, CartEntry.gItem, WishlistEntry.gItem]

theorem cexSellerRunC :
    runSeller "s1" "month" [] [cexCart1] [] []
      = .ok (cexSellerStC, cexSellerResC) := by
  norm_num +decide [runSeller, processOrdersSeller, buildSellerResult,
    initState, jsSort, insertSorted, sellerMergedPM, groupByProductIdMod,
    mergeCountsInto, sellerCartSeed, sellerWishSeed, sellerImageMap,
    sellerCostMap, cexCart1, getK, setK, addK, qOrD, sOrD, sOrN, imgGet,
    CartEntry.gItem, WishlistEntry.gItem, cexSellerStC, cexSellerResC,
    cexAccC]

/-- C6 amended witness: one margin element per accumulator at the
cart-only input. -/
theorem claim6_amended_witness :
    cexSellerResC.profitMargins.length = cexSellerStC.productMap.length :=
  (claim6_amended.1 "s1" "month" [] [cexCart1] [] [] cexSellerStC
    cexSellerResC cexSellerRunC).1

/-- C9: in both routes the cart/wishlist merge is a frame over everything
except the `inCart` / `inWishlist` counters: earnings, the time series, the
hour histogram, the country totals and the customer structures are exactly
the values left by the order loop; every accumulator that existed before
the merge keeps its `sold`, `deliveryFees` and descriptive fields; every
accumulator created by the merge has `sold = 0` and `deliveryFees = 0`. -/
theorem claim9_merge_frame :
    (∀ (seller range : String) (orders : List Order) (products : List Product)
        (cart : List CartEntry) (wishlist : List WishlistEntry)
        (st1 st2 : AState) (r : ApiResult),
      processOrdersApi (apiImageMap products) range initState orders = .ok st1 →
      runApi seller range orders products cart wishlist = .ok (st2, r) →
      st2.earnings = st1.earnings
      ∧ st2.salesOverTime = st1.salesOverTime
      ∧ st2.hourBuckets = st1.hourBuckets
      ∧ st2.salesByCountry = st1.salesByCountry
      ∧ st2.customers = st1.customers
      ∧ st2.customerOrders = st1.customerOrders
      ∧ (∀ pid a, getK st1.productMap pid = some a →
          ∃ b, getK st2.productMap pid = some b ∧ b.sold = a.sold
            ∧ b.deliveryFees = a.deliveryFees ∧ b.id = a.id ∧ b.name = a.name
            ∧ b.price = a.price ∧ b.cost = a.cost ∧ b.image = a.image)
      ∧ (∀ pid b, getK st1.productMap pid = none →
          getK st2.productMap pid = some b →
          b.sold = 0 ∧ b.deliveryFees = 0))
    ∧ (∀ (seller range : String) (ordersAll : List Order)
        (cartAll : List CartEntry) (wishlistAll : List WishlistEntry)
        (productsAll : List Product) (st1 st2 : AState) (r : SellerResult),
      processOrdersSeller (sellerImageMap seller productsAll) range initState
          (ordersAll.filter (fun o => o.seller = seller)) = .ok st1 →
      runSeller seller range ordersAll cartAll wishlistAll productsAll
          = .ok (st2, r) →
      st2.earnings = st1.earnings
      ∧ st2.salesOverTime = st1.salesOverTime
      ∧ st2.hourBuckets = st1.hourBuckets
      ∧ st2.salesByCountry = st1.salesByCountry
      ∧ st2.customers = st1.customers
      ∧ st2.customerOrders = st1.customerOrders
      ∧ (∀ pid a, getK st1.productMap pid = some a →
          ∃ b, getK st2.productMap pid = some b ∧ b.sold = a.sold
            ∧ b.deliveryFees = a.deliveryFees ∧ b.id = a.id ∧ b.name = a.name
            ∧ b.price = a.price ∧ b.cost = a.cost ∧ b.image = a.image)
      ∧ (∀ pid b, getK st1.productMap pid = none →
          getK st2.productMap pid = some b →
          b.sold = 0 ∧ b.deliveryFees = 0)) := by
  constructor
  · intro seller range orders products cart wishlist st1 st2 r hpo hrun
    obtain ⟨st1', hpo', hst2, hr⟩ := runApi_ok_inv seller range orders
      products cart wishlist st2 r hrun
    rw [hpo] at hpo'
    obtain rfl := Except.ok.inj hpo'
    subst hst2
    have hframe := apiMergedPM_mapFrame products cart wishlist st1.productMap
    refine ⟨rfl, rfl, rfl, rfl, rfl, rfl, ?_, ?_⟩
    · intro pid a ha
      obtain ⟨b, hb, fr⟩ := (hframe pid).1 a ha
      exact ⟨b, hb, fr.soldEq, fr.feesEq, fr.idEq, fr.nameEq, fr.priceEq,
        fr.costEq, fr.imageEq⟩
    · intro pid b hnone hb
      exact (hframe pid).2 hnone b hb
  · intro seller range ordersAll cartAll wishlistAll productsAll st1 st2 r
      hpo hrun
    obtain ⟨st1', hpo', hst2, hr⟩ := runSeller_ok_inv seller range ordersAll
      cartAll wishlistAll productsAll st2 r hrun
    rw [hpo] at hpo'
    obtain rfl := Except.ok.inj hpo'
    subst hst2
    have hframe := sellerMergedPM_mapFrame seller ordersAll cartAll
      wishlistAll productsAll st1.productMap
    refine ⟨rfl, rfl, rfl, rfl, rfl, rfl, ?_, ?_⟩
    · intro pid a ha
      obtain ⟨b, hb, fr⟩ := (hframe pid).1 a ha
      exact ⟨b, hb, fr.soldEq, fr.feesEq, fr.idEq, fr.nameEq, fr.priceEq,
        fr.costEq, fr.imageEq⟩
    · intro pid b hnone hb
      exact (hframe pid).2 hnone b hb

/-- C9 witness: the accumulator the seller route's cart merge creates for
the cart-only product has zero `sold` and zero `deliveryFees`. -/
theorem claim9_merge_frame_witness :
    cexAccC.sold = 0 ∧ cexAccC.deliveryFees = 0 :=
  (claim9_merge_frame.2 "s1" "month" [] [cexCart1] [] [] initState
      cexSellerStC cexSellerResC rfl cexSellerRunC).2.2.2.2.2.2.2
    "pc1" cexAccC rfl rfl

/-- C8 witness: a missing seller yields the InvalidArgument condition and a
present seller avoids it, at concrete inputs. -/
theorem claim8_seller_guard_witness :
    apiAnalyticsRoute none (some "day") [] [] [] []
        = .error .invalidArgument
    ∧ apiAnalyticsRoute (some "acme") (some "day") [] [] [] []
        ≠ .error .invalidArgument :=
  ⟨(claim8_seller_guard.1 (some "day") [] [] [] []).1,
   (claim8_seller_guard.2 "acme" (some "day") [] [] [] [] (by decide)).1⟩
